import Mathlib

/-!
Verification development for the templify line-classification core.

This file gives a shallow embedding, in Lean 4, of the classification and
routing pipeline of the templify source tree:

  * `normalize_line`  (core/analysis/detectors/utils/normalize_line.py)
  * `coerce_to_lines` (core/analysis/detectors/utils/coerce_to_lines.py)
  * the exact matcher (core/analysis/detectors/exact_matcher.py)
  * the regex fallback (core/analysis/detectors/regex_maker.py)
  * the heuristic detectors (heading/list/paragraph/table/callouts)
  * the feature extractor (core/analysis/features.py)
  * the semantic classifier (core/analysis/detectors/semantic_classifier.py)
  * descriptor coercion (core/analysis/utils/pattern_descriptor.py)
  * the router (core/analysis/matcher.py)
  * domain scoring (core/analysis/domain_scoring.py)
  * the section assembler (core/config/utils/section_builder.py)

Modelling conventions, used throughout:

  * Python floats are modelled as exact rationals (`ℚ`); all the numeric
    literals in the source are short decimals, so this is faithful and the
    "within floating tolerance" caveats of the spec become exact equalities.
  * Python character classes (`\w`, `\s`, `isupper`, ...) are modelled at
    their ASCII meaning (plus the Unicode whitespace code points that the
    source mentions explicitly); every concrete input evaluated in this file
    is covered by that fragment.
  * Compiled third-party regular expressions used only as opaque tests
    (domain-pack keyword/regex/stopword patterns) are modelled as boolean
    predicates `String → Bool`; the concrete regexes written in the source
    itself are implemented as explicit character-level matchers.
  * `difflib.SequenceMatcher.ratio` and `math.exp` are external-library
    functions; they are taken as parameters, with their documented
    properties (ratio ∈ [0,1], exp > 0) as hypotheses where needed.
  * CPython object identity (`id(self)`, used for `PatternDescriptor.id`)
    is modelled by an explicit allocation address passed to the
    constructor; distinct live objects have distinct addresses.
  * A mutable `dict` field shared by aliasing (the `features` dictionaries
    of descriptors during section building) is modelled by an explicit
    index-addressed store threaded through the loop.
-/

namespace Templify

/-! ## Python string primitives (ASCII fragment) -/

/-- Model of Python `str.isspace` / regex `\s` membership: ASCII whitespace
plus the Unicode space/separator code points handled by the source. -/
def isPySpace (c : Char) : Bool :=
  c = ' ' || c = '\t' || c = '\n' || c = '\x0d' || c = '\x0b' || c = '\x0c' ||
  c = '\u0085' || c = ' ' || c = ' ' ||
  (0x2000 ≤ c.toNat && c.toNat ≤ 0x200A) ||
  c = ' ' || c = ' ' || c = ' ' || c = ' ' || c = '　'

/-- ASCII uppercase letter. -/
def isUpperAZ (c : Char) : Bool := 'A' ≤ c && c ≤ 'Z'

/-- ASCII lowercase letter. -/
def isLowerAZ (c : Char) : Bool := 'a' ≤ c && c ≤ 'z'

/-- ASCII letter. -/
def isAlphaAZ (c : Char) : Bool := isUpperAZ c || isLowerAZ c

/-- ASCII digit. -/
def isDigit09 (c : Char) : Bool := '0' ≤ c && c ≤ '9'

/-- Model of Python regex `\w` (word character), ASCII fragment:
letters, digits and underscore. -/
def isWordChar (c : Char) : Bool := isAlphaAZ c || isDigit09 c || c = '_'

/-- Python `str.strip()` on a character list. -/
def pyStripList (cs : List Char) : List Char :=
  ((cs.dropWhile isPySpace).reverse.dropWhile isPySpace).reverse

/-- Python `str.strip()`. -/
def pyStrip (s : String) : String := String.mk (pyStripList s.data)

/-- Lowercase one ASCII character. -/
def charLower (c : Char) : Char :=
  if isUpperAZ c then Char.ofNat (c.toNat + 32) else c

/-- Uppercase one ASCII character. -/
def charUpper (c : Char) : Char :=
  if isLowerAZ c then Char.ofNat (c.toNat - 32) else c

/-- Python `str.lower()` (ASCII fragment). -/
def pyLower (s : String) : String := String.mk (s.data.map charLower)

/-- Python `str.upper()` (ASCII fragment). -/
def pyUpper (s : String) : String := String.mk (s.data.map charUpper)

/-- Prefix test on strings by character list (kernel-reducible analogue of
`String.startsWith`). -/
def strStartsWith (s pre : String) : Bool := pre.data.isPrefixOf s.data

/-- Suffix test on strings by character list. -/
def strEndsWith (s suf : String) : Bool :=
  suf.data.reverse.isPrefixOf s.data.reverse

/-- Drop the first `n` characters of a string. -/
def strDrop (s : String) (n : Nat) : String := String.mk (s.data.drop n)

/-- Accumulator pass for `pySplit`: `cur` holds the reversed characters of
the field being read. -/
def pySplitGo (cur : List Char) : List Char → List String
  | [] => if cur.isEmpty then [] else [String.mk cur.reverse]
  | c :: cs =>
    if isPySpace c then
      if cur.isEmpty then pySplitGo [] cs
      else String.mk cur.reverse :: pySplitGo [] cs
    else pySplitGo (c :: cur) cs

/-- Python `str.split()` with no argument: split on runs of whitespace,
discarding empty fields. -/
def pySplit (s : String) : List String := pySplitGo [] s.data

/-! ## `normalize_line` (detectors/utils/normalize_line.py)

The source first applies `unicodedata.normalize("NFKC", s)`.  Full NFKC is
external-library behaviour; `nfkc` below implements the NFKC algorithm
restricted to strings over ASCII together with U+200D (zero-width joiner),
U+0301 (combining acute) and U+00E9 (precomposed é) — the fragment every
concrete input in this file lives in.  On that fragment the Unicode data
tables say: é canonically decomposes to `e` followed by U+0301 and is the
primary composite of that pair; U+200D has combining class 0 and no
decomposition, so it blocks composition across itself; all other characters
of the fragment are normalization-inert.  The two phases below (canonical
decomposition, then left-to-right canonical composition of adjacent pairs)
are exactly UAX #15 on this fragment. -/

/-- Canonical decomposition on the modelled fragment: é → e + U+0301. -/
def nfkcDecompChar (c : Char) : List Char :=
  if c = 'é' then ['e', '́'] else [c]

/-- Canonical composition pass: compose an adjacent `e` + U+0301 pair into
é; a character with no composition rule (in particular U+200D, combining
class 0) blocks composition across itself. -/
def nfkcComposeGo (pending : Char) : List Char → List Char
  | [] => [pending]
  | c :: cs =>
    if pending = 'e' && c = '́' then nfkcComposeGo 'é' cs
    else pending :: nfkcComposeGo c cs

/-- Model of `unicodedata.normalize("NFKC", ·)` on the fragment described
above: decompose, then compose. -/
def nfkc (s : String) : String :=
  match s.data.flatMap nfkcDecompChar with
  | [] => ""
  | c :: cs => String.mk (nfkcComposeGo c cs)

/-- Code points of `_WS_RX` in normalize_line.py: exotic spaces collapsed
to an ASCII space. -/
def isExoticSpace (c : Char) : Bool :=
  c = ' ' || c = ' ' || (0x2000 ≤ c.toNat && c.toNat ≤ 0x200A) ||
  c = ' ' || c = ' ' || c = '　' || c = ' '

/-- Code points of `_INVIS_RX` in normalize_line.py: zero-width and
bidi/invisible marks, stripped. -/
def isInvisibleMark (c : Char) : Bool :=
  c = '​' || c = '‌' || c = '‍' || c = '⁠' || c = '﻿' ||
  c = '‎' || c = '‏' || (0x202A ≤ c.toNat && c.toNat ≤ 0x202E) ||
  (0x2066 ≤ c.toNat && c.toNat ≤ 0x2069)

/-- `_DASH_TABLE`: dash variants to `-`. -/
def dashTable (c : Char) : Char :=
  if c = '‐' || c = '‒' || c = '–' || c = '—' || c = '―'
  then '-' else c

/-- `_QUOTE_TABLE`: quote variants to ASCII quotes. -/
def quoteTable (c : Char) : Char :=
  if c = '“' || c = '”' || c = '„' || c = '«' || c = '»'
  then '"'
  else if c = '‘' || c = '’' || c = '‚' || c = '‹' || c = '›'
  then '\''
  else c

/-- `_BULLET_TABLE`: bullet glyph variants to the canonical bullet. -/
def bulletTable (c : Char) : Char :=
  if c = '▪' || c = '●' || c = '◦' || c = '·' then '•' else c

/-- Run pass for `_SPACES_RX`: `inRun` records whether the previous
character belonged to a space/tab run already emitted as one space. -/
def collapseGo (inRun : Bool) : List Char → List Char
  | [] => []
  | c :: cs =>
    if c = ' ' || c = '\t' then
      if inRun then collapseGo true cs else ' ' :: collapseGo true cs
    else c :: collapseGo false cs

/-- `_SPACES_RX`: collapse runs of spaces/tabs to one space. -/
def collapseSpacesTabs (cs : List Char) : List Char := collapseGo false cs

/-- `normalize_line(text)` from normalize_line.py: NFKC, exotic spaces to
ASCII space, strip invisible marks, canonicalize dashes/quotes/bullets,
collapse space/tab runs, trim.  (`None` input, which the source maps to
`""`, is outside the `String` type and not modelled.) -/
def normalize_line (text : String) : String :=
  let s1 := nfkc text
  let s2 := String.mk (s1.data.map (fun c => if isExoticSpace c then ' ' else c))
  let s3 := String.mk (s2.data.filter (fun c => !isInvisibleMark c))
  let s4 := String.mk (s3.data.map (fun c => bulletTable (quoteTable (dashTable c))))
  let s5 := String.mk (collapseSpacesTabs s4.data)
  pyStrip s5

example : normalize_line "  Hello   World " = "Hello World" := by decide
example : normalize_line "e\u200d\u0301" = "e\u0301" := by decide
example : normalize_line "e\u0301" = "\u00e9" := by decide
example : normalize_line "\u00e9" = "\u00e9" := by decide

/-! ## `coerce_to_lines` (detectors/utils/coerce_to_lines.py)

The source does duck typing: a `list`/`tuple` is returned as is; otherwise
`getattr(source, "text", None)` and `getattr(source, "lines", None)` are
tried.  A Python `str` is not a list or tuple and has neither a `text` nor
a `lines` attribute, so a bare string coerces to the EMPTY list of lines
(only `PlaintextContext`, which has `.text`, yields its one line). -/

/-- The duck-typed inputs `coerce_to_lines` can receive: a list of lines, a
bare string, or a `PlaintextContext`-like object with `text`/`lines`
attributes. -/
inductive PyLines where
  | ofList (l : List String)
  | ofStr (s : String)
  | ofCtx (text : Option String) (lines : Option (List String))
deriving DecidableEq

/-- `coerce_to_lines(source)` from coerce_to_lines.py. -/
def coerce_to_lines : PyLines → List String
  | .ofList l => l
  | .ofStr _ => []
  | .ofCtx (some t) _ => [t]
  | .ofCtx none (some ls) => ls
  | .ofCtx none none => []

example : coerce_to_lines (.ofStr "Summary") = [] := by decide

/-! ## Exact matcher (detectors/exact_matcher.py) -/

/-- The `Detection` dataclass of exact_matcher.py. -/
structure ExactDetection where
  line_idx : Nat
  title : String
  score : ℚ
  method : String := "exact"
deriving DecidableEq

/-- One `cand_norm.setdefault(c_key, c0)` step: insert only if the key is
absent. -/
def candNormInsert (m : List (String × String)) (key val : String) :
    List (String × String) :=
  if (m.lookup key).isSome then m else m ++ [(key, val)]

/-- The candidate-normalization loop of `find_exact_matches`: strip each
candidate, case-fold the key when `case_insensitive`, keep the first
original per key. -/
def buildCandNorm (candidates : List String) (ci : Bool) :
    List (String × String) :=
  candidates.foldl
    (fun m c =>
      let c0 := pyStrip c
      let cKey := if ci then pyLower c0 else c0
      candNormInsert m cKey c0) []

/-- The inner `for k in keys` loop of `find_exact_matches`: the first key
found in `cand_norm` yields a score-1.0 detection. -/
def exactKeyHit (candNorm : List (String × String)) (ci : Bool) (i : Nat)
    (keys : List String) : Option ExactDetection :=
  keys.findSome? (fun k =>
    let kKey := if ci then pyLower k else k
    (candNorm.lookup kKey).map (fun title =>
      { line_idx := i, title := title, score := 1, method := "exact" }))

/-- `find_exact_matches(lines, candidates, case_insensitive)` from
exact_matcher.py: a line hits when its stripped form, or that form with one
trailing colon removed, equals a normalized candidate. -/
def find_exact_matches (lines : PyLines) (candidates : List String)
    (case_insensitive : Bool := true) : List ExactDetection :=
  let L := coerce_to_lines lines
  let candNorm := buildCandNorm candidates case_insensitive
  L.enum.filterMap (fun p =>
    let s := pyStrip p.2
    let s_trim := if strEndsWith s ":" then String.mk s.data.dropLast else s
    exactKeyHit candNorm case_insensitive p.1 [s_trim, s])

/-- `match(text, **kwargs)` from exact_matcher.py, the router's entrypoint:
without candidates there is nothing to match; otherwise it delegates the
router's `text` argument directly to `find_exact_matches`. -/
def exact_matcher_match (text : PyLines) (candidates : Option (List String)) :
    List ExactDetection :=
  match candidates with
  | none => []
  | some cs => find_exact_matches text cs true

example :
    find_exact_matches (.ofList ["Summary:"]) ["Summary"] =
      [{ line_idx := 0, title := "Summary", score := 1, method := "exact" }] := by
  decide

example : find_exact_matches (.ofStr "Summary") ["Summary"] = [] := by decide

/-! ## Regex maker (detectors/regex_maker.py)

Each `re.match`/`re.fullmatch` test written literally in the source is
implemented as a character-level matcher; the emitted pattern strings are
kept verbatim (as data) because `_regex_score` and `classify_regex` inspect
them as strings. -/

/-- Characters of the class `[\w\.-]` used by the email test. -/
def isEmailChar (c : Char) : Bool := isWordChar c || c = '.' || c = '-'

/-- Tail of the email test after `@`: all chars in `[\w\.-]`, with a dot
splitting off a final run of at least two letters
(`[\w\.-]+\.[A-Za-z]\x7b2,\x7d$`). -/
def emailSuffixOk (r : List Char) : Bool :=
  r.all isEmailChar &&
  (List.range r.length).any (fun i =>
    match r.get? i with
    | some '.' => decide (0 < i) && decide (2 ≤ r.length - (i + 1)) &&
        (r.drop (i + 1)).all isAlphaAZ
    | _ => false)

/-- Matcher for `^[\w\.-]+@[\w\.-]+\.[A-Za-z]\x7b2,\x7d$` (email). -/
def emailCheck (s : String) : Bool :=
  let cs := s.data
  let a := cs.takeWhile isEmailChar
  match cs.drop a.length with
  | '@' :: r => !a.isEmpty && emailSuffixOk r
  | _ => false

/-- Matcher for `^https?://` (URL). -/
def urlCheck (s : String) : Bool :=
  strStartsWith s "http://" || strStartsWith s "https://"

/-- Characters of the class `[-.\s]` in the phone test. -/
def isSepChar (c : Char) : Bool := c = '-' || c = '.' || isPySpace c

/-- Consume exactly `n` digits, returning the rest. -/
def exactDigits (n : Nat) (cs : List Char) : Option (List Char) :=
  if (cs.take n).length = n && (cs.take n).all isDigit09 then some (cs.drop n)
  else none

/-- Matcher for `^\(?\d\x7b3\x7d\)?[-.\s]?\d\x7b3\x7d[-.\s]?\d\x7b4\x7d$`
(phone).  All the optional pieces are disjoint from the digit runs that
follow them, so greedy matching is deterministic. -/
def phoneCheck (s : String) : Bool :=
  let cs := s.data
  let cs1 := match cs with | '(' :: r => r | _ => cs
  match exactDigits 3 cs1 with
  | none => false
  | some cs2 =>
    let cs3 := match cs2 with | ')' :: r => r | _ => cs2
    let cs4 := match cs3 with
      | c :: r => if isSepChar c then r else cs3
      | [] => cs3
    match exactDigits 3 cs4 with
    | none => false
    | some cs5 =>
      let cs6 := match cs5 with
        | c :: r => if isSepChar c then r else cs5
        | [] => cs5
      match exactDigits 4 cs6 with
      | some [] => true
      | _ => false

/-- The `MONTHS` list of regex_maker.py. -/
def MONTHS : List String :=
  ["Jan", "Feb", "Mar", "Apr", "May", "Jun",
   "Jul", "Aug", "Sep", "Oct", "Nov", "Dec"]

/-- The `MONTH_REGEX` pattern string of regex_maker.py. -/
def MONTH_REGEX : String := "(Jan|Feb|Mar|Apr|May|Jun|Jul|Aug|Sep|Oct|Nov|Dec)"

/-- Matcher for the date test `^(Jan|…|Dec)\s+\d\x7b4\x7d$`. -/
def dateMonthCheck (s : String) : Bool :=
  (MONTHS.findSome? (fun m =>
    if strStartsWith s m then some (strDrop s m.length) else none)).elim false
    (fun rest =>
      let cs := rest.data
      let w := cs.takeWhile isPySpace
      !w.isEmpty &&
        (let d := cs.drop w.length
         decide (d.length = 4) && d.all isDigit09))

/-- Matcher for `^\d\x7b2\x7d/\d\x7b2\x7d/\d\x7b4\x7d$` (slash date). -/
def dateSlashCheck (s : String) : Bool :=
  match exactDigits 2 s.data with
  | some ('/' :: r1) =>
    match exactDigits 2 r1 with
    | some ('/' :: r2) =>
      (match exactDigits 4 r2 with | some [] => true | _ => false)
    | _ => false
  | _ => false

/-- Matcher for `^\d+[\.\)]\s+` (numbered list prefix). -/
def numberedListCheck (s : String) : Bool :=
  let cs := s.data
  let d := cs.takeWhile isDigit09
  !d.isEmpty &&
    (match cs.drop d.length with
     | c :: r => (c = '.' || c = ')') && !(r.takeWhile isPySpace).isEmpty
     | [] => false)

/-- Matcher for `^[\u2022\-\*]\s+` (bulleted list prefix; in the source the
raw string keeps `\u2022` as an escape for the regex engine, which reads it
as the bullet code point). -/
def bulletListCheck (s : String) : Bool :=
  match s.data with
  | c :: r => (c = '•' || c = '-' || c = '*') && !(r.takeWhile isPySpace).isEmpty
  | [] => false

/-- Matcher for `^[A-Za-z\s]+:\s*$` (heading with colon). -/
def headingColonCheck (s : String) : Bool :=
  let cs := s.data
  let run := cs.takeWhile (fun c => isAlphaAZ c || isPySpace c)
  !run.isEmpty &&
    (match cs.drop run.length with
     | ':' :: r => r.all isPySpace
     | _ => false)

/-- Flush the pending token of the tokenizer. -/
def flushTok (cur : List Char) : List String :=
  if cur.isEmpty then [] else [String.mk cur.reverse]

/-- Maximal-munch scanner for `re.findall(r"[A-Za-z]+|\d+|[^\w\s]|\s+", …)`:
`kind` is 1 inside a letter run, 2 inside a digit run, 3 inside a
whitespace run, 0 otherwise; `cur` holds the reversed pending run.  An
underscore matches none of the four alternatives, so `findall` skips it. -/
def rxTokGo (kind : Nat) (cur : List Char) : List Char → List String
  | [] => flushTok cur
  | c :: cs =>
    if isAlphaAZ c then
      if kind = 1 then rxTokGo 1 (c :: cur) cs
      else flushTok cur ++ rxTokGo 1 [c] cs
    else if isDigit09 c then
      if kind = 2 then rxTokGo 2 (c :: cur) cs
      else flushTok cur ++ rxTokGo 2 [c] cs
    else if isPySpace c then
      if kind = 3 then rxTokGo 3 (c :: cur) cs
      else flushTok cur ++ rxTokGo 3 [c] cs
    else if isWordChar c then
      flushTok cur ++ rxTokGo 0 [] cs
    else
      flushTok cur ++ (String.mk [c] :: rxTokGo 0 [] cs)

/-- The token stream of the fallback branch of `normalize_to_regex`. -/
def rxTokens (s : String) : List String := rxTokGo 0 [] s.data

/-- Model of `re.escape` on one character (CPython escapes exactly the
bytes of `()[]\x7b\x7d?*+-|^$\.&~#` and ASCII whitespace). -/
def reEscapeChar (c : Char) : String :=
  if c = '(' || c = ')' || c = '[' || c = ']' || c = '\x7b' || c = '\x7d' ||
     c = '?' || c = '*' || c = '+' || c = '-' || c = '|' || c = '^' ||
     c = '$' || c = '\\' || c = '.' || c = '&' || c = '~' || c = '#' ||
     c = ' ' || c = '\t' || c = '\n' || c = '\x0d' || c = '\x0b' || c = '\x0c'
  then String.mk ['\\', c] else String.mk [c]

/-- Model of `re.escape` on a token. -/
def reEscape (t : String) : String := String.join (t.data.map reEscapeChar)

/-- Per-token pattern piece of the fallback branch of
`normalize_to_regex`. -/
def tokenToPart (tok : String) : String :=
  if !tok.data.isEmpty && tok.data.all isPySpace then "\\s+"
  else if decide (tok.length = 4) && tok.data.all isDigit09 then "\\d\x7b4\x7d"
  else if !tok.data.isEmpty && tok.data.all isDigit09 then "\\d+"
  else if tok = "-" || tok = "•" || tok = "*" then "[\\u2022\\-\\*]"
  else if !tok.data.isEmpty && tok.data.all isAlphaAZ then
    if tok ∈ MONTHS then MONTH_REGEX else "[A-Za-z]+"
  else reEscape tok

/-- `normalize_to_regex(line)` from regex_maker.py: the eight
high-confidence shape checks, in source order, then the generic
tokenizer. -/
def normalize_to_regex (line : String) : String :=
  let text := pyStrip line
  if text = "" then "^\\s*$"
  else if emailCheck text then
    "^[A-Za-z0-9._%+-]+@[A-Za-z0-9.-]+\\.[A-Za-z]\x7b2,\x7d$"
  else if urlCheck text then "^https?://[^\\s]+$"
  else if phoneCheck text then
    "^\\(?\\d\x7b3\x7d\\)?[-.\\s]?\\d\x7b3\x7d[-.\\s]?\\d\x7b4\x7d$"
  else if dateMonthCheck text then
    "^" ++ MONTH_REGEX ++ "\\s+\\d\x7b4\x7d$"
  else if dateSlashCheck text then "^\\d\x7b2\x7d/\\d\x7b2\x7d/\\d\x7b4\x7d$"
  else if numberedListCheck text then "^\\d+[\\.\\)]\\s+[A-Za-z]+.*$"
  else if bulletListCheck text then "^[\\u2022\\-\\*]\\s+[A-Za-z]+.*$"
  else if headingColonCheck text then "^[A-Za-z\\s]+:\\s*$"
  else "^" ++ String.join ((rxTokens text).map tokenToPart) ++ "$"

/-- Substring test used to model Python's `in` on pattern strings. -/
def containsSubGo (sub : List Char) : List Char → Bool
  | [] => sub.isEmpty
  | c :: cs => sub.isPrefixOf (c :: cs) || containsSubGo sub cs

/-- Python `sub in hay` for strings. -/
def strContains (hay sub : String) : Bool := containsSubGo sub.data hay.data

/-- `_regex_score(pattern)` from regex_maker.py: structure found in the
pattern string decides 0.6 / 0.5 / 0.3. -/
def regexScore (pattern : String) : ℚ :=
  if strContains pattern "\\d\x7b4\x7d" || strContains pattern "@" ||
     strContains pattern "https?" || strContains pattern "\\d+\\)" ||
     strContains pattern "\\d+\\." || strContains pattern MONTH_REGEX
  then 0.6
  else if strContains pattern "[A-Za-z]+" && strContains pattern "\\d+" then 0.5
  else 0.3

/-- `classify_regex(pattern, text)` from regex_maker.py (the `text`
argument is accepted and unused, as in the source). -/
def classify_regex (pattern : String) (text : String) : String :=
  if strContains pattern "@" then "EMAIL"
  else if strContains pattern "https?" then "URL"
  else if strContains pattern "\\d\x7b3\x7d" && strContains pattern "\\d\x7b4\x7d" &&
          strContains pattern "(" then "PHONE"
  else if strContains pattern MONTH_REGEX ||
          strContains pattern "\\d\x7b2\x7d/\\d\x7b2\x7d/\\d\x7b4\x7d" then "DATE"
  else if strStartsWith pattern "^\\d+[\\.\\)]" then "L-NUMBERED"
  else if strStartsWith pattern "^[\\u2022\\-\\*]" then "L-BULLET"
  else if strEndsWith pattern ":$" then "H-COLON"
  else "UNKNOWN"

/-- The `RegexDetection` dataclass of regex_maker.py. -/
structure RegexDetection where
  line_idx : Nat
  title : String
  score : ℚ
  pattern : String
  label : String
  method : String := "regex"
deriving DecidableEq

/-- `regex_fallback(lines)` from regex_maker.py: every line yields exactly
one detection. -/
def regex_fallback (lines : PyLines) : List RegexDetection :=
  (coerce_to_lines lines).enum.map (fun p =>
    let text := pyStrip p.2
    let pattern := normalize_to_regex text
    let score := regexScore pattern
    let classification := classify_regex pattern text
    { line_idx := p.1, title := text, score := score, pattern := pattern,
      label := "REGEX-" ++ classification, method := "regex" })

/-- `match(lines, domain=None, **kwargs)` from regex_maker.py: a bare
string is wrapped into a one-element list (this detector, alone, handles
the router's bare-string argument), and the highest-scoring detection is
returned (`max` keeps the first of equal maxima). -/
def regex_maker_match (lines : PyLines) : Option RegexDetection :=
  let wrapped := match lines with
    | .ofStr s => PyLines.ofList [s]
    | other => other
  match regex_fallback wrapped with
  | [] => none
  | h :: t => some (t.foldl (fun best r => if best.score < r.score then r else best) h)

example : normalize_to_regex "Summary" = "^[A-Za-z]+$" := by decide

example : normalize_to_regex "Summary:" = "^[A-Za-z\\s]+:\\s*$" := by decide

example :
    normalize_to_regex "- Buy milk" = "^[\\u2022\\-\\*]\\s+[A-Za-z]+.*$" := by decide

example : emailCheck "john@example.com" = true := by decide

example :
    classify_regex (normalize_to_regex "- Buy milk") "- Buy milk" = "L-BULLET" := by
  decide

example : classify_regex (normalize_to_regex "Summary:") "Summary:" = "UNKNOWN" := by
  decide


/-! ## Feature extractor (core/analysis/features.py) -/

/-- ASCII punctuation, i.e. membership in Python's `string.punctuation`. -/
def isAsciiPunct (c : Char) : Bool :=
  (0x21 ≤ c.toNat && c.toNat ≤ 0x2F) || (0x3A ≤ c.toNat && c.toNat ≤ 0x40) ||
  (0x5B ≤ c.toNat && c.toNat ≤ 0x60) || (0x7B ≤ c.toNat && c.toNat ≤ 0x7E)

/-- The `_EXTRA_PUNCT` characters of features.py. -/
def isExtraPunct (c : Char) : Bool :=
  c = '—' || c = '–' || c = '…' || c = '“' || c = '”' || c = '‘' || c = '’' ||
  c = '·' || c = '•' || c = '∙' || c = '◦' || c = '▪'

/-- Python `w.strip(string.punctuation)`. -/
def stripPunct (cs : List Char) : List Char :=
  ((cs.dropWhile isAsciiPunct).reverse.dropWhile isAsciiPunct).reverse

/-- Python `str.islower()` on ASCII: at least one cased character and no
uppercase one. -/
def pyIsLowerL (cs : List Char) : Bool :=
  cs.any isAlphaAZ && cs.all (fun c => !isUpperAZ c)

/-- Run-collapsing pass for `_WS_RE.sub(" ", s)`: any whitespace run
becomes one space. -/
def collapseWsGo (inRun : Bool) : List Char → List Char
  | [] => []
  | c :: cs =>
    if isPySpace c then
      if inRun then collapseWsGo true cs else ' ' :: collapseWsGo true cs
    else c :: collapseWsGo false cs

/-- `_normalize_for_match(s)` from features.py: strip, then collapse
whitespace runs. -/
def normalizeForMatch (s : String) : String :=
  let s' := pyStrip s
  if s' = "" then s' else String.mk (collapseWsGo false s'.data)

/-- `_sentence_count`: occurrences of `.`, `!` or `?` followed by
whitespace or end of string (`[.!?](?=\s|$)`). -/
def sentenceCountL : List Char → Nat
  | [] => 0
  | [c] => if c = '.' || c = '!' || c = '?' then 1 else 0
  | c :: d :: cs =>
    (if (c = '.' || c = '!' || c = '?') && isPySpace d then 1 else 0) +
      sentenceCountL (d :: cs)

/-- `_uppercase_ratio`: uppercase letters over letters (0 when there are no
letters). -/
def uppercaseRatioL (cs : List Char) : ℚ :=
  let letters := cs.filter isAlphaAZ
  if letters.isEmpty then 0
  else ((letters.filter isUpperAZ).length : ℚ) / (letters.length : ℚ)

/-- `_is_titlecase_word`: strip punctuation; at least two characters, first
uppercase, rest lowercase (in Python's `str.islower` sense). -/
def isTitlecaseWord (w : String) : Bool :=
  let core := stripPunct w.data
  match core with
  | c :: rest => decide (2 ≤ core.length) && isUpperAZ c && pyIsLowerL rest
  | [] => false

/-- `_titlecase_rate`: titlecase tokens over the given (alpha) tokens. -/
def titlecaseRateL (tokens : List String) : ℚ :=
  if tokens.isEmpty then 0
  else ((tokens.filter isTitlecaseWord).length : ℚ) / (tokens.length : ℚ)

/-- `_is_allcaps_word`: strip punctuation; at least two letters, all
uppercase. -/
def isAllcapsWord (w : String) : Bool :=
  let letters := (stripPunct w.data).filter isAlphaAZ
  decide (2 ≤ letters.length) && letters.all isUpperAZ

/-- `_digit_ratio`: digits over characters (`char_len` passed by the
caller; 0 when it is 0). -/
def digitRatioL (cs : List Char) (char_len : Nat) : ℚ :=
  if char_len = 0 then 0
  else ((cs.filter isDigit09).length : ℚ) / (char_len : ℚ)

/-- `_punct_density`: punctuation characters over characters. -/
def punctDensityL (cs : List Char) (char_len : Nat) : ℚ :=
  if char_len = 0 then 0
  else ((cs.filter (fun c => isAsciiPunct c || isExtraPunct c)).length : ℚ) /
    (char_len : ℚ)

/-- Glyph class of `_BULLET_RE` in features.py. -/
def isFeatBulletGlyph (c : Char) : Bool :=
  c = '•' || c = '·' || c = '∙' || c = '●' || c = '◦' || c = '○' || c = '▪' ||
  c = '▸' || c = '▶' || c = '-' || c = '–' || c = '—' || c = '*'

/-- `_detect_bullet_prefix`: `^\s*([glyphs])\s+`, except that a dash-like
glyph directly followed (after the spaces) by a digit is not a bullet
("-3.5" is a negative number).  Returns the matched glyph. -/
def detectBulletPfx (cs : List Char) : Option Char :=
  let w := cs.takeWhile isPySpace
  match cs.drop w.length with
  | g :: rest =>
    if isFeatBulletGlyph g then
      let w2 := rest.takeWhile isPySpace
      if w2.isEmpty then none
      else
        let tail := (rest.drop w2.length).dropWhile isPySpace
        if g = '-' || g = '–' || g = '—' || g = '*' then
          match tail with
          | t :: _ => if isDigit09 t then none else some g
          | [] => some g
        else some g
    else none
  | [] => none

/-- Greedy `(\.\d+)*` extension chain after the first digit run of
`_DECIMAL_RE`; returns the consumed characters, the rest, and the number
of extensions (fuel-driven, fuel ≥ input length). -/
def dotDigitExts : Nat → List Char → (List Char × List Char × Nat)
  | 0, cs => ([], cs, 0)
  | fuel + 1, cs =>
    match cs with
    | '.' :: rest =>
      let d := rest.takeWhile isDigit09
      if d.isEmpty then ([], cs, 0)
      else
        let out := dotDigitExts fuel (rest.drop d.length)
        ('.' :: (d ++ out.1), out.2.1, out.2.2 + 1)
    | _ => ([], cs, 0)

/-- Whether a whitespace character follows (the `\s+` tail shared by the
numbering regexes). -/
def wsFollows (cs : List Char) : Bool := !(cs.takeWhile isPySpace).isEmpty

/-- Group of `_DECIMAL_RE` `((?:\d+\.)+\d+\.?|(?:\d+)[\.\)])` followed by
`\s+`, applied after the leading whitespace: nested decimal chain with an
optional trailing dot, or a single digit run with `.`/`)`.  Backtracking
over shorter chains cannot succeed (the next character is then a digit or
a dot, never whitespace), so the greedy parse is exact. -/
def decimalGroup (cs : List Char) : Option (List Char) :=
  let d0 := cs.takeWhile isDigit09
  if d0.isEmpty then none
  else
    let rest0 := cs.drop d0.length
    let out := dotDigitExts cs.length rest0
    if 1 ≤ out.2.2 then
      match out.2.1 with
      | '.' :: r2 =>
        if wsFollows r2 then some (d0 ++ out.1 ++ ['.'])
        else none
      | rest1 => if wsFollows rest1 then some (d0 ++ out.1) else none
    else
      match rest0 with
      | c :: r =>
        if (c = '.' || c = ')') && wsFollows r then some (d0 ++ [c]) else none
      | [] => none

/-- Group of `_BRACKETED_RE` `\[((?:\d+|[A-Za-z]))\]\s+` (the captured
group excludes the brackets). -/
def bracketedGroup (cs : List Char) : Option (List Char) :=
  match cs with
  | '[' :: rest =>
    let d := rest.takeWhile isDigit09
    if !d.isEmpty then
      match rest.drop d.length with
      | ']' :: r => if wsFollows r then some d else none
      | _ => none
    else
      match rest with
      | a :: ']' :: r =>
        if isAlphaAZ a && wsFollows r then some [a] else none
      | _ => none
  | _ => none

/-- Characters of the Roman-numeral class of `_ROMAN_RE` (both cases are
listed in the source class). -/
def isRomanChar (c : Char) : Bool :=
  c = 'i' || c = 'v' || c = 'x' || c = 'l' || c = 'c' || c = 'd' || c = 'm' ||
  c = 'I' || c = 'V' || c = 'X' || c = 'L' || c = 'C' || c = 'D' || c = 'M'

/-- Group of `_ROMAN_RE` `(\(?[ivxlcdmIVXLCDM]+\)?[\.\)])\s+`: optional
open paren, Roman letters, then either `)` consumed by `\)?` with a
`.`/`)` separator after it, or the `)`/`.` itself as separator. -/
def romanGroup (cs : List Char) : Option (List Char) :=
  let pfx := match cs with | '(' :: _ => ['('] | _ => []
  let cs1 := if pfx.isEmpty then cs else cs.drop 1
  let R := cs1.takeWhile isRomanChar
  if R.isEmpty then none
  else
    match cs1.drop R.length with
    | ')' :: rest =>
      (match rest with
       | c :: r =>
         if (c = '.' || c = ')') && wsFollows r then some (pfx ++ R ++ [')', c])
         else if wsFollows rest then some (pfx ++ R ++ [')'])
         else none
       | [] => none)
    | c :: rest =>
      if (c = '.' || c = ')') && wsFollows rest then some (pfx ++ R ++ [c])
      else none
    | [] => none

/-- Group of `_ALPHA_RE` `(([A-Za-z])[\.\)])\s+`. -/
def alphaGroup (cs : List Char) : Option (List Char) :=
  match cs with
  | a :: c :: r =>
    if isAlphaAZ a && (c = '.' || c = ')') && wsFollows r then some [a, c]
    else none
  | _ => none

/-- `_detect_numbering_prefix`: try `_DECIMAL_RE`, `_BRACKETED_RE`,
`_ROMAN_RE`, `_ALPHA_RE` in that order (each after leading whitespace),
returning the stripped first group. -/
def detectNumberingPfx (cs : List Char) : Option String :=
  let body := cs.dropWhile isPySpace
  ((decimalGroup body).orElse (fun _ => (bracketedGroup body).orElse (fun _ =>
    (romanGroup body).orElse (fun _ => alphaGroup body)))).map
    (fun g => String.mk (pyStripList g))

/-- `_LEADER_DOTS_RE` `\.\x7b3,\x7d\s*\d+\s*$` searched: read the string
from the end. -/
def leaderDotsSearch (cs : List Char) : Bool :=
  let rev := cs.reverse
  let w1 := rev.takeWhile isPySpace
  let d := (rev.drop w1.length).takeWhile isDigit09
  if d.isEmpty then false
  else
    let w2 := (rev.drop (w1.length + d.length)).takeWhile isPySpace
    let dots := (rev.drop (w1.length + d.length + w2.length)).takeWhile (· = '.')
    decide (3 ≤ dots.length)

/-- Case-insensitive literal prefix; returns the rest on success. -/
def ciPrefixRest (pre : List Char) (cs : List Char) : Option (List Char) :=
  match pre, cs with
  | [], rest => some rest
  | _ :: _, [] => none
  | p :: ps, c :: rest =>
    if charLower c = charLower p then ciPrefixRest ps rest else none

/-- One-position test for `_URL_LIKE_RE` `(?i)\b(?:https?://|www\.)\S+`:
word boundary before, one of the alternatives, then at least one
non-space. -/
def urlLikeAt (prev : Option Char) (cs : List Char) : Bool :=
  (prev.elim true (fun p => !isWordChar p)) &&
  (["http://", "https://", "www."].any (fun pre =>
    match ciPrefixRest pre.data cs with
    | some (c :: _) => !isPySpace c
    | _ => false))

/-- Search pass for `_URL_LIKE_RE`. -/
def urlLikeGo (prev : Option Char) : List Char → Bool
  | [] => false
  | c :: cs => urlLikeAt prev (c :: cs) || urlLikeGo (some c) cs

/-- `bool(_URL_LIKE_RE.search(s))`. -/
def containsUrlLike (cs : List Char) : Bool := urlLikeGo none cs

/-- Python `line.rstrip("\n")`. -/
def rstripNewlines (s : String) : String :=
  String.mk ((s.data.reverse.dropWhile (· = '\n')).reverse)

/-- The `LineFeatures` dataclass of features.py (field names follow the
source; `numbering_pfx` stands for the source's numbering-prefix field,
`uppercaseRatio`/`titlecaseRate`/`digitRatio`/`punctDensity` for the
snake_case ratio fields). -/
structure LineFeatures where
  text : String
  text_norm : String
  token_count : Nat
  char_len : Nat
  sentence_count : Nat
  uppercaseRatio : ℚ
  titlecaseRate : ℚ
  digitRatio : ℚ
  punctDensity : ℚ
  ends_with_period : Bool
  starts_with_bullet : Bool
  bullet_glyph : Option String
  numbering_pfx : Option String
  indent_level : Nat
  has_leader_dots : Bool
  trailing_colon : Bool
  has_allcaps_word : Bool
  contains_bar : Bool
  contains_emdash : Bool
  contains_url_like : Bool
deriving DecidableEq

/-- `extract_line_features(line, indent_level=0)` from features.py. -/
def extract_line_features (line : String) (indent_level : Nat := 0) :
    LineFeatures :=
  let raw := rstripNewlines line
  let text_norm := normalizeForMatch raw
  let tokens := pySplit text_norm
  let alpha_tokens := tokens.filter (fun t => t.data.any isAlphaAZ)
  let char_len := text_norm.data.length
  let bullet := detectBulletPfx text_norm.data
  { text := raw
    text_norm := text_norm
    token_count := tokens.length
    char_len := char_len
    sentence_count := sentenceCountL text_norm.data
    uppercaseRatio := uppercaseRatioL text_norm.data
    titlecaseRate := titlecaseRateL alpha_tokens
    digitRatio := digitRatioL text_norm.data char_len
    punctDensity := punctDensityL text_norm.data char_len
    ends_with_period := strEndsWith text_norm "."
    starts_with_bullet := bullet.isSome
    bullet_glyph := bullet.map (fun g => String.mk [g])
    numbering_pfx := detectNumberingPfx text_norm.data
    indent_level := indent_level
    has_leader_dots := leaderDotsSearch text_norm.data
    trailing_colon := strEndsWith text_norm ":"
    has_allcaps_word := tokens.any isAllcapsWord
    contains_bar := text_norm.data.any (· = '|')
    contains_emdash := text_norm.data.any (· = '—') || text_norm.data.any (· = '–')
    contains_url_like := containsUrlLike text_norm.data }

example :
    detectNumberingPfx "1. Introduction".data = some "1." := by decide

example : detectBulletPfx "-3.5 things".data = none := by decide

example : detectBulletPfx "- Buy milk".data = some '-' := by decide


/-! ## Heading detector (detectors/heuristics/heading_detector.py) -/

/-- Matcher for `_ALL_CAPS_RE` `^[A-Z0-9][A-Z0-9\s\-\&/\W]*$` (anchored, so
`.search` equals matching the whole string): first character uppercase or
digit, the rest drawn from uppercase/digit/whitespace/`-&/` or any
non-word character (lowercase letters and underscore are the only
excluded characters). -/
def allCapsSearch (cs : List Char) : Bool :=
  match cs with
  | c :: rest =>
    (isUpperAZ c || isDigit09 c) &&
      rest.all (fun d =>
        isUpperAZ d || isDigit09 d || isPySpace d || d = '-' || d = '&' ||
        d = '/' || !isWordChar d)
  | [] => false

/-- One `[A-Z][a-z]+` word of the title-case regexes; returns the rest. -/
def tcWord (cs : List Char) : Option (List Char) :=
  match cs with
  | c :: rest =>
    if isUpperAZ c then
      let ls := rest.takeWhile isLowerAZ
      if ls.isEmpty then none else some (rest.drop ls.length)
    else none
  | [] => none

/-- Tail `(?:\s+[A-Z][a-z]+)\x7b0,k\x7d\s*$` of `_TITLE_CASE_RE` after the
first word. -/
def tcTail (k : Nat) (cs : List Char) : Bool :=
  if cs.all isPySpace then true
  else
    match k with
    | 0 => false
    | k' + 1 =>
      let w := cs.takeWhile isPySpace
      if w.isEmpty then false
      else
        match tcWord (cs.drop w.length) with
        | some rest => tcTail k' rest
        | none => false

/-- Matcher for `_TITLE_CASE_RE` `^[A-Z][a-z]+(?:\s+[A-Z][a-z]+)\x7b0,5\x7d\s*$`. -/
def titleCaseSearch (cs : List Char) : Bool :=
  match tcWord cs with
  | some rest => tcTail 5 rest
  | none => false

/-- Tail of `_TITLE_CASE_COLON_RE` after the first word: either the colon
followed by whitespace to the end, or up to `k` further words. -/
def tcTailColon (k : Nat) (cs : List Char) : Bool :=
  match cs with
  | ':' :: r => r.all isPySpace
  | _ =>
    match k with
    | 0 => false
    | k' + 1 =>
      let w := cs.takeWhile isPySpace
      if w.isEmpty then false
      else
        match tcWord (cs.drop w.length) with
        | some rest => tcTailColon k' rest
        | none => false

/-- Matcher for `_TITLE_CASE_COLON_RE`
`^[A-Z][a-z]+(?:\s+[A-Z][a-z]+)\x7b0,5\x7d:\s*$`. -/
def titleCaseColonSearch (cs : List Char) : Bool :=
  match tcWord cs with
  | some rest => tcTailColon 5 rest
  | none => false

/-- Matcher for `_COLON_RE` `[:]\s*$` searched anywhere: a colon followed
only by whitespace up to the end. -/
def colonSearch (cs : List Char) : Bool :=
  match cs.reverse.dropWhile isPySpace with
  | ':' :: _ => true
  | _ => false

/-- Matched remainder of `_NUM_HEAD_RE` `^\(?\d+(?:\.\d+)*[.)]?\s+`:
`some rest` is the input with the matched prefix removed (used both as a
predicate and for `re.sub`).  Declining the optional `[.)]?` only helps
when the separator is not followed by whitespace, in which case no
alternative succeeds either, so the greedy parse is exact. -/
def numHeadRest (cs : List Char) : Option (List Char) :=
  let cs1 := match cs with | '(' :: r => r | _ => cs
  let d0 := cs1.takeWhile isDigit09
  if d0.isEmpty then none
  else
    let rest0 := cs1.drop d0.length
    let out := dotDigitExts cs1.length rest0
    match out.2.1 with
    | c :: r =>
      if c = '.' || c = ')' then
        let w := r.takeWhile isPySpace
        if !w.isEmpty then some (r.drop w.length) else none
      else
        let w := (c :: r).takeWhile isPySpace
        if !w.isEmpty then some ((c :: r).drop w.length) else none
    | [] => none

/-- Matched remainder of `_ROMAN_HEAD_RE` `^[IVXLCDM]+[.)]\s+` with
`re.IGNORECASE`. -/
def romanHeadRest (cs : List Char) : Option (List Char) :=
  let R := cs.takeWhile isRomanChar
  if R.isEmpty then none
  else
    match cs.drop R.length with
    | c :: r =>
      if c = '.' || c = ')' then
        let w := r.takeWhile isPySpace
        if !w.isEmpty then some (r.drop w.length) else none
      else none
    | [] => none

/-- Matcher for the heading `_BULLET_RE` `^\s*([\-–—•▪◦●·])\s+`. -/
def headBulletSearch (cs : List Char) : Bool :=
  let w := cs.takeWhile isPySpace
  match cs.drop w.length with
  | g :: r =>
    (g = '-' || g = '–' || g = '—' || g = '•' || g = '▪' || g = '◦' ||
     g = '●' || g = '·') && wsFollows r
  | [] => false

/-- Matcher for `_TOC_DOTS_RE` `[.]\x7b2,\x7d\s*\d+$` searched: at least
two dots, optional whitespace, then digits ending the string. -/
def tocDotsSearch (cs : List Char) : Bool :=
  let rev := cs.reverse
  let d := rev.takeWhile isDigit09
  if d.isEmpty then false
  else
    let w := (rev.drop d.length).takeWhile isPySpace
    let dots := (rev.drop (d.length + w.length)).takeWhile (· = '.')
    decide (2 ≤ dots.length)

/-- `strip_leading_numbering(s)`: remove the `_NUM_HEAD_RE` prefix (the
anchored pattern matches at most once) and strip. -/
def strip_leading_numbering (s : String) : String :=
  match numHeadRest s.data with
  | some rest => pyStrip (String.mk rest)
  | none => pyStrip s

/-- `strip_leading_heading(s)`: remove the `_NUM_HEAD_RE` prefix if it
changes the string, else the `_ROMAN_HEAD_RE` prefix; strip either way. -/
def strip_leading_heading (s : String) : String :=
  match numHeadRest s.data with
  | some rest => pyStrip (String.mk rest)
  | none =>
    match romanHeadRest s.data with
    | some rest => pyStrip (String.mk rest)
    | none => pyStrip s

/-- `strip_trailing_dot(s)`: `_TRAILING_DOT_RE` `[ \t\.]+$` removed. -/
def strip_trailing_dot (s : String) : String :=
  String.mk ((s.data.reverse.dropWhile
    (fun c => c = ' ' || c = '\t' || c = '.')).reverse)

/-- Values of the feature dictionaries passed around the detectors
(`asdict` of a dataclass or a style bag): strings, numbers, booleans or
optional strings. -/
inductive FeatVal where
  | s (v : String)
  | n (v : Nat)
  | q (v : ℚ)
  | b (v : Bool)
  | os (v : Option String)
deriving DecidableEq

/-- Python truthiness of a feature value. -/
def featTruthy : FeatVal → Bool
  | .s v => decide (v ≠ "")
  | .n v => decide (v ≠ 0)
  | .q v => decide (v ≠ 0)
  | .b v => v
  | .os v => v.elim false (fun s => decide (s ≠ ""))

/-- Numeric reading of `feats.get("font_size", 0) or 0` (booleans are
Python ints; other falsy defaults are 0). -/
def featNumOr0 : FeatVal → ℚ
  | .n v => v
  | .q v => v
  | .b v => if v then 1 else 0
  | _ => 0

/-- The `asdict` image of a `LineFeatures` dataclass, with the source's
field names as keys (this is what `_features_to_dict` produces when the
detectors pass a `LineFeatures` along). -/
def featuresAsDict (lf : LineFeatures) : List (String × FeatVal) :=
  [("text", .s lf.text),
   ("text_norm", .s lf.text_norm),
   ("token_count", .n lf.token_count),
   ("char_len", .n lf.char_len),
   ("sentence_count", .n lf.sentence_count),
   ("uppercase_ratio", .q lf.uppercaseRatio),
   ("titlecase_rate", .q lf.titlecaseRate),
   ("digit_ratio", .q lf.digitRatio),
   ("punct_density", .q lf.punctDensity),
   ("ends_with_period", .b lf.ends_with_period),
   ("starts_with_bullet", .b lf.starts_with_bullet),
   ("bullet_glyph", .os lf.bullet_glyph),
   ("numbering_prefix", .os lf.numbering_pfx),
   ("indent_level", .n lf.indent_level),
   ("has_leader_dots", .b lf.has_leader_dots),
   ("trailing_colon", .b lf.trailing_colon),
   ("has_allcaps_word", .b lf.has_allcaps_word),
   ("contains_bar", .b lf.contains_bar),
   ("contains_emdash", .b lf.contains_emdash),
   ("contains_url_like", .b lf.contains_url_like)]

/-- The `HeadingClue` dataclass: a named weighted predicate with an
optional preprocessor. -/
structure HeadingClue where
  name : String
  weight : ℚ
  pred : String → Bool
  pre : Option (String → String) := none

/-- `HeadingClue.fires`: apply the preprocessor (if any), then the
predicate. -/
def clueFires (c : HeadingClue) (text : String) : Bool :=
  c.pred (c.pre.elim text (fun f => f text))

/-- `BASE_CLUES` from heading_detector.py. -/
def BASE_CLUES : List HeadingClue :=
  [{ name := "all_caps", weight := 0.55, pred := fun s => allCapsSearch s.data },
   { name := "title_case", weight := 0.39, pred := fun s => titleCaseSearch s.data },
   { name := "trailing_colon", weight := 0.25, pred := fun s => colonSearch s.data },
   { name := "title_case_with_colon", weight := 0.39,
     pred := fun s => titleCaseColonSearch s.data },
   { name := "num_heading", weight := 0.30,
     pred := fun s => (numHeadRest s.data).isSome },
   { name := "roman_heading", weight := 0.30,
     pred := fun s => (romanHeadRest s.data).isSome },
   { name := "title_after_num", weight := 0.39,
     pred := fun s => titleCaseSearch s.data,
     pre := some (fun s => strip_trailing_dot (strip_leading_heading s)) },
   { name := "bullet_or_dash", weight := -0.30,
     pred := fun s => headBulletSearch s.data },
   { name := "toc_dots", weight := -0.20,
     pred := fun s => tocDotsSearch s.data }]

/-- `SYNERGY_RULES` from heading_detector.py: clue-name sets with their
fixed bonus. -/
def SYNERGY_RULES : List (List String × ℚ) :=
  [(["num_heading", "title_after_num"], 0.50),
   (["roman_heading", "title_after_num"], 0.10),
   (["trailing_colon", "title_case"], 0.25)]

/-- `score_heading`, kept together with the `fired` clue-name set it
builds internally: normalize, sum fired clue weights, apply the
bold/font-size/list-numbering feature adjustments, add the synergy
bonuses of fully fired rule sets, clamp to [0,1]. -/
def scoreHeadingFired (text : String)
    (features : Option (List (String × FeatVal)))
    (clues : List HeadingClue := BASE_CLUES) : ℚ × List String :=
  let s := normalize_line text
  if s = "" then (0, [])
  else
    let base := clues.foldl
      (fun acc clue =>
        if clueFires clue s then (acc.1 + clue.weight, acc.2 ++ [clue.name])
        else acc) ((0 : ℚ), ([] : List String))
    let fired := base.2
    let feats := features.getD []
    let adjusted :=
      if !feats.isEmpty then
        let is_heading := fired.contains "num_heading" ||
          fired.contains "roman_heading"
        let s1 := base.1 +
          (if (feats.lookup "bold").elim false featTruthy then 0.10 else 0)
        let s2 := s1 +
          (if 14 ≤ featNumOr0 ((feats.lookup "font_size").getD (.q 0))
           then 0.10 else 0)
        s2 -
          (if (feats.lookup "contains_list_numbering").elim false featTruthy &&
              !is_heading
           then 0.15 else 0)
      else base.1
    let withSynergy := SYNERGY_RULES.foldl
      (fun acc rule =>
        if rule.1.all (fun n => fired.contains n) then acc + rule.2 else acc)
      adjusted
    (max 0 (min 1 withSynergy), fired)

/-- `score_heading(text, features, clues)` from heading_detector.py. -/
def score_heading (text : String)
    (features : Option (List (String × FeatVal)))
    (clues : List HeadingClue := BASE_CLUES) : ℚ :=
  (scoreHeadingFired text features clues).1

/-- The `HeadingDetection` dataclass. -/
structure HeadingDetection where
  line_idx : Nat
  label : String
  score : ℚ
  method : String := "heuristic"
deriving DecidableEq

/-- `detect_headings(source, threshold=0.55, label="heading", clues)` from
heading_detector.py (the per-line `extract_line_features` call never
raises in the model, so the `except` arm is dead). -/
def detect_headings (source : PyLines) (threshold : ℚ := 0.55)
    (label : String := "heading") (clues : List HeadingClue := BASE_CLUES) :
    List HeadingDetection :=
  (coerce_to_lines source).enum.filterMap (fun p =>
    let feats := some (featuresAsDict (extract_line_features p.2))
    let sc := score_heading p.2 feats clues
    if threshold ≤ sc then
      some { line_idx := p.1, label := label, score := sc, method := "heuristic" }
    else none)

/-! ## List detector (detectors/heuristics/list_detector.py) -/

/-- The `ListDetection` dataclass. -/
structure ListDetection where
  line_idx : Nat
  label : String := "list"
  score : ℚ := 0
  method : String := "heuristic"
deriving DecidableEq

/-- Matcher for the list `BULLET_RE` `^\s*([\-–—•▪◦●·\*])\s+` (the heading
glyph set plus `*`). -/
def listBulletSearch (cs : List Char) : Bool :=
  let w := cs.takeWhile isPySpace
  match cs.drop w.length with
  | g :: r =>
    (g = '-' || g = '–' || g = '—' || g = '•' || g = '▪' || g = '◦' ||
     g = '●' || g = '·' || g = '*') && wsFollows r
  | [] => false

/-- Matcher for `ORDERED_RE` `^\s*((\d+|[a-zA-Z]|[ivxlcdmIVXLCDM]+)([.)]))\s+`:
a digit run, a single letter, or a Roman run, then `.`/`)`, then
whitespace.  The alternation is ordered; a single letter and a Roman run
overlap only when both succeed anyway. -/
def orderedSearch (cs : List Char) : Bool :=
  let body := cs.drop (cs.takeWhile isPySpace).length
  let afterHead : Option (List Char) :=
    let d := body.takeWhile isDigit09
    if !d.isEmpty then some (body.drop d.length)
    else
      match body with
      | a :: r =>
        if isAlphaAZ a then some r
        else
          let R := body.takeWhile isRomanChar
          if !R.isEmpty then some (body.drop R.length) else none
      | [] => none
  match afterHead with
  | some (c :: r) => (c = '.' || c = ')') && wsFollows r
  | _ => false

/-- Matcher for `ORDERED_NESTED_RE` `^\s*\d+(\.\d+)+\s+`: nested decimal
numbering with at least one `.digits` extension. -/
def orderedNestedSearch (cs : List Char) : Bool :=
  let body := cs.drop (cs.takeWhile isPySpace).length
  let d0 := body.takeWhile isDigit09
  if d0.isEmpty then false
  else
    let out := dotDigitExts body.length (body.drop d0.length)
    decide (1 ≤ out.2.2) && wsFollows out.2.1

/-- Matcher for `DEFINITION_RE` `^\s*\w+(?:\s+\w+)*\s*[:—–-]\s+`: words,
then a colon/dash separator, then whitespace.  The word/space prefix is a
maximal run of word characters and whitespace that ends before the
separator; because `\s*` sits before the separator class and `\s+` after
it, the prefix simply cannot contain the separator characters, so the
greedy scan is exact: take the maximal run of word/space characters
starting with a word character, then require separator plus whitespace. -/
def definitionSearch (cs : List Char) : Bool :=
  let body := cs.drop (cs.takeWhile isPySpace).length
  match body with
  | c :: _ =>
    if isWordChar c then
      let run := body.takeWhile (fun d => isWordChar d || isPySpace d)
      match body.drop run.length with
      | sep :: r =>
        (sep = ':' || sep = '—' || sep = '–' || sep = '-') && wsFollows r
      | [] => false
    else false
  | [] => false

/-- Matcher for `INDENTED_RE` `^\s\x7b4,\x7d` (applied to the raw line). -/
def indentedSearch (cs : List Char) : Bool :=
  decide (4 ≤ (cs.takeWhile isPySpace).length)

/-- `score_list_line(text)` from list_detector.py: bullet 0.9, ordered
0.9, definition 0.8, indented continuation 0.6 (checked on the raw text),
else 0. -/
def score_list_line (text : String) : ℚ :=
  if text = "" then 0
  else
    let s := normalize_line text
    if listBulletSearch s.data then 0.9
    else if orderedSearch s.data || orderedNestedSearch s.data then 0.9
    else if definitionSearch s.data then 0.8
    else if indentedSearch text.data then 0.6
    else 0

/-- `detect_lists(source, threshold=0.55)` from list_detector.py. -/
def detect_lists (source : PyLines) (threshold : ℚ := 0.55) :
    List ListDetection :=
  (coerce_to_lines source).enum.filterMap (fun p =>
    let sc := score_list_line p.2
    if threshold ≤ sc then
      some { line_idx := p.1, label := "list", score := sc, method := "heuristic" }
    else none)

/-- `match(lines, features=None, domain=None, threshold=0.55)` from
list_detector.py, the router's entrypoint. -/
def list_detector_match (lines : PyLines) (threshold : ℚ := 0.55) :
    List ListDetection :=
  detect_lists lines threshold


/-! ## Paragraph detector (detectors/heuristics/paragraph_detector.py) -/

/-- The `ParagraphDetection` dataclass. -/
structure ParagraphDetection where
  line_idx : Nat
  label : String
  score : ℚ
  method : String := "heuristic"
deriving DecidableEq

/-- Matcher for the paragraph `_ALL_CAPS_RE` `^[A-Z0-9\s\W]+$`: nonempty
and free of lowercase letters and underscores. -/
def paraAllCapsMatch (cs : List Char) : Bool :=
  !cs.isEmpty &&
    cs.all (fun c => isUpperAZ c || isDigit09 c || isPySpace c || !isWordChar c)

/-- `score_paragraph(text, features)` from paragraph_detector.py: positive
prose signals, negative heading/list/metadata signals, feature
adjustments, clamped to [0,1]. -/
def score_paragraph (text : String)
    (features : Option (List (String × FeatVal))) : ℚ :=
  let s := normalize_line text
  if s = "" then 0
  else
    let words := pySplit s
    let num_tokens := words.length
    let score1 : ℚ := if 8 ≤ num_tokens then 0.4 else 0
    let score2 := score1 +
      (if s.data.any (fun c =>
          c = '.' || c = ',' || c = ';' || c = ':' || c = '!' || c = '?')
       then 0.2 else 0)
    let score3 := score2 + (if strEndsWith s "." then 0.2 else 0)
    let score4 := score3 +
      (if 2 ≤ (s.data.filter (· = '.')).length then 0.2 else 0)
    let avg : ℚ := ((words.map (fun w => (w.data.length : ℚ))).sum) /
      max 1 (num_tokens : ℚ)
    let score5 := score4 + (if 4 ≤ avg then 0.1 else 0)
    let lowerWords := pySplit (pyLower s)
    let score6 := score5 +
      (if ["the", "is", "of", "and", "in"].any (fun st => lowerWords.contains st)
       then 0.1 else 0)
    let score7 := score6 - (if paraAllCapsMatch s.data then 0.5 else 0)
    let score8 := score7 - (if headBulletSearch s.data then 0.5 else 0)
    let score9 := score8 - (if tocDotsSearch s.data then 0.5 else 0)
    let score10 := score9 - (if num_tokens < 5 then 0.5 else 0)
    let score11 := score10 - (if strEndsWith s ":" then 0.3 else 0)
    let upper_r : ℚ := ((s.data.filter isUpperAZ).length : ℚ) /
      max 1 (s.data.length : ℚ)
    let score12 := score11 - (if (7 : ℚ)/10 < upper_r then 0.4 else 0)
    let digit_r : ℚ := ((s.data.filter isDigit09).length : ℚ) /
      max 1 (s.data.length : ℚ)
    let score13 := score12 - (if (1 : ℚ)/2 < digit_r then 0.4 else 0)
    let sym_r : ℚ := ((s.data.filter (fun c =>
        c = '-' || c = '=' || c = '*' || c = '#' || c = '_')).length : ℚ) /
      max 1 (s.data.length : ℚ)
    let score14 := score13 - (if (3 : ℚ)/10 < sym_r then 0.3 else 0)
    let fd := features.getD []
    let score15 := score14 +
      (if (fd.lookup "contains_text").elim false featTruthy then 0.1 else 0)
    let score16 := score15 -
      (if (fd.lookup "bold").elim false featTruthy then 0.25 else 0)
    let score17 := score16 -
      (if 14 ≤ featNumOr0 ((fd.lookup "font_size").getD (.q 0)) then 0.33 else 0)
    max 0 (min 1 score17)

/-- `detect_paragraphs(source, threshold=0.55, label="paragraph")` from
paragraph_detector.py. -/
def detect_paragraphs (source : PyLines) (threshold : ℚ := 0.55)
    (label : String := "paragraph") : List ParagraphDetection :=
  (coerce_to_lines source).enum.filterMap (fun p =>
    let feats := some (featuresAsDict (extract_line_features p.2))
    let sc := score_paragraph p.2 feats
    if threshold ≤ sc then
      some { line_idx := p.1, label := label, score := sc, method := "heuristic" }
    else none)

/-! ## Table detector (detectors/heuristics/table_detector.py and
forms/tables.py) -/

/-- The `TableForm` enum of forms/tables.py. -/
inductive TableForm where
  | T_ROW
  | T_HEADER
  | T_CAPTION
  | T_FOOTNOTE
deriving DecidableEq

/-- The string value of a `TableForm` member. -/
def TableForm.value : TableForm → String
  | .T_ROW => "T-ROW"
  | .T_HEADER => "T-HEADER"
  | .T_CAPTION => "T-CAPTION"
  | .T_FOOTNOTE => "T-FOOTNOTE"

/-- Python `str.isupper()` on ASCII: at least one cased character, none
lowercase. -/
def pyIsUpperL (cs : List Char) : Bool :=
  cs.any isAlphaAZ && cs.all (fun c => !isLowerAZ c)

/-- `guess_table_form(text)` from forms/tables.py. -/
def guess_table_form (text : String) : Option TableForm :=
  if text = "" then none
  else
    let s := String.intercalate " " (pySplit text)
    if strStartsWith (pyLower s) "table " then some .T_CAPTION
    else if s.data.any (· = '|') || s.data.any (· = '\t') then some .T_ROW
    else if pyIsUpperL s.data && decide ((pySplit s).length ≤ 6) then
      some .T_HEADER
    else none

/-- The `TableDetection` dataclass. -/
structure TableDetection where
  line_idx : Nat
  label : String
  score : ℚ
  method : String := "heuristic"
  form : Option TableForm := none
  clean_text : Option String := none
deriving DecidableEq

/-- `score_table_line(text)` from table_detector.py: column count,
delimiters, digit share, ASCII borders, stopword penalty, clamped. -/
def score_table_line (text : String) : ℚ :=
  let s := normalize_line text
  if s = "" then 0
  else
    let tokens := pySplit s
    let num_tokens := tokens.length
    let score1 : ℚ := if 4 ≤ num_tokens then 0.8 else 0
    let score2 := score1 +
      (if s.data.any (· = '|') ||
          s.data.any (fun c => c = ';' || c = ',' || c = '\t')
       then 0.3 else 0)
    let digit_r : ℚ := ((s.data.filter isDigit09).length : ℚ) /
      max 1 (s.data.length : ℚ)
    let score3 := score2 + (if (3 : ℚ)/10 < digit_r then 0.3 else 0)
    let score4 := score3 +
      (if !s.data.isEmpty &&
          s.data.all (fun c => c = '+' || c = '-' || c = '|' || c = '=')
       then 0.9 else 0)
    let score5 := score4 -
      (if ["the", "is", "and", "of", "in"].any
          (fun st => (pySplit (pyLower s)).contains st)
       then 0.3 else 0)
    max 0 (min 1 score5)

/-- `detect_tables(source, threshold=0.55)` from table_detector.py. -/
def detect_tables (source : PyLines) (threshold : ℚ := 0.55) :
    List TableDetection :=
  (coerce_to_lines source).enum.filterMap (fun p =>
    let sc := score_table_line p.2
    if threshold ≤ sc then
      let form := guess_table_form p.2
      let label := (form.map TableForm.value).getD TableForm.T_ROW.value
      some { line_idx := p.1, label := label, score := sc,
             method := "heuristic", form := form,
             clean_text := some (pyStrip p.2) }
    else none)

/-- `match(lines, features=None, domain=None, threshold=0.55)` from
table_detector.py. -/
def table_detector_match (lines : PyLines) (threshold : ℚ := 0.55) :
    List TableDetection :=
  detect_tables lines threshold

/-! ## Callout detector (detectors/heuristics/callouts.py) -/

/-- The `CalloutForm` enum of forms/callouts.py. -/
inductive CalloutForm where
  | C_WARNING
  | C_QUOTE
  | C_CODE
deriving DecidableEq

/-- The `DetectedCallout` dataclass of callouts.py.  (The descriptor
coercion imports a `CalloutDetection` name that callouts.py does not
define; `DetectedCallout` is the class that exists.) -/
structure DetectedCallout where
  line_idx : Nat
  score : ℚ
  method : String := "heuristic"
  label : String := "callout"
  form : Option CalloutForm := none
deriving DecidableEq

/-- Word-boundary test of `\b` before a word character. -/
def wordBoundaryBefore (prev : Option Char) : Bool :=
  prev.elim true (fun p => !isWordChar p)

/-- One-position test for `_WARNING_RE` `\b(WARNING|CAUTION|BLACK BOX)\b`
with `re.IGNORECASE`. -/
def warningAt (prev : Option Char) (cs : List Char) : Bool :=
  wordBoundaryBefore prev &&
  (["warning", "caution", "black box"].any (fun w =>
    match ciPrefixRest w.data cs with
    | some [] => true
    | some (r :: _) => !isWordChar r
    | none => false))

/-- Search pass for `_WARNING_RE`. -/
def warningSearchGo (prev : Option Char) : List Char → Bool
  | [] => false
  | c :: cs => warningAt prev (c :: cs) || warningSearchGo (some c) cs

/-- `bool(_WARNING_RE.search(s))`. -/
def warningSearch (cs : List Char) : Bool := warningSearchGo none cs

/-- Matcher for `_QUOTE_RE`: a leading double quote, single quote or `>`. -/
def quoteMatch (cs : List Char) : Bool :=
  match cs with
  | c :: _ => c = '"' || c = '\'' || c = '>'
  | [] => false

/-- Matcher for `_ATTRIB_RE` `^-\s*[A-Z][A-Za-z]+(?:\s+[A-Z][A-Za-z]+)*`
used as a boolean: the starred group is optional, so the test reduces to
the mandatory `-`, optional spaces, and a capitalized word of length at
least two. -/
def attribMatch (cs : List Char) : Bool :=
  match cs with
  | '-' :: r =>
    let w := r.takeWhile isPySpace
    (match r.drop w.length with
     | c :: d :: _ => isUpperAZ c && isAlphaAZ d
     | _ => false)
  | _ => false

/-- Matcher for `_MONO_RE` `[;\x7b\x7d]|` + backtick-pair: a semicolon or
brace anywhere, or two backticks on the line. -/
def monoSearch (cs : List Char) : Bool :=
  cs.any (fun c => c = ';' || c = Char.ofNat 0x7B || c = Char.ofNat 0x7D) ||
  decide (2 ≤ (cs.filter (· = Char.ofNat 0x60)).length)

/-- `score_callout_line(text)` from callouts.py: a raw 4-space/tab indent
scores 0.8 outright; otherwise warning, quote/attribution and monospace
cues accumulate, capped at 1. -/
def score_callout_line (text : String) : ℚ :=
  if text = "" then 0
  else if strStartsWith text "    " || strStartsWith text "\t" then 0.8
  else
    let s := normalize_line text
    let score1 : ℚ := if warningSearch s.data then 0.9 else 0
    let score2 := score1 +
      (if quoteMatch s.data || attribMatch s.data then 0.7 else 0)
    let score3 := score2 + (if monoSearch s.data then 0.6 else 0)
    min 1 score3

/-- `CalloutHeuristicDetector.detect(source, threshold=0.5)` from
callouts.py. -/
def detect_callouts (source : PyLines) (threshold : ℚ := 0.5) :
    List DetectedCallout :=
  (coerce_to_lines source).enum.filterMap (fun p =>
    let sc := score_callout_line p.2
    if threshold ≤ sc then
      some { line_idx := p.1, score := sc, method := "heuristic",
             label := "callout", form := none }
    else none)

/-- `match(lines, features=None, domain=None, threshold=0.5)` from
callouts.py. -/
def callouts_match (lines : PyLines) (threshold : ℚ := 0.5) :
    List DetectedCallout :=
  detect_callouts lines threshold

/-! ## Semantic classifier (detectors/semantic_classifier.py)

`difflib.SequenceMatcher(...).ratio()` is external-library behaviour and
is passed in as the parameter `smRatio`; its documented range [0,1] enters
as a hypothesis where a theorem needs it. -/

/-- The `SemanticPrediction` dataclass. -/
structure SemanticPrediction where
  line_idx : Nat
  title : String
  score : ℚ
  method : String := "semantic"
deriving DecidableEq

/-- `_ratio(a, b)`: lowercase and strip both sides, then apply the
`SequenceMatcher` ratio `smRatio`. -/
def semRatio (smRatio : String → String → ℚ) (a b : String) : ℚ :=
  smRatio (pyStrip (pyLower a)) (pyStrip (pyLower b))

/-- `semantic_classify(lines, candidates, threshold=0.82)` from
semantic_classifier.py: keep, per line, the first candidate attaining the
strictly-best ratio, if it reaches the threshold. -/
def semantic_classify (smRatio : String → String → ℚ) (lines : PyLines)
    (candidates : List String) (threshold : ℚ := 0.82) :
    List SemanticPrediction :=
  let L := coerce_to_lines lines
  if candidates.isEmpty then []
  else
    L.enum.filterMap (fun p =>
      let best := candidates.foldl
        (fun acc c =>
          let r := semRatio smRatio p.2 c
          if acc.1 < r then (r, some c) else acc)
        ((0 : ℚ), (none : Option String))
      match best.2 with
      | some title =>
        if threshold ≤ best.1 then
          some { line_idx := p.1, title := title, score := best.1,
                 method := "semantic" }
        else none
      | none => none)


/-! ## PatternDescriptor (analysis/utils/pattern_descriptor.py)

`PatternDescriptor.__init__` sets `self.id = f"pat_{id(self)}"`: the CPython
object identity (memory address) of the freshly created descriptor.  The
model passes that address explicitly as `addr`; two descriptor objects that
exist at the same time have distinct addresses. -/

/-- The canonical descriptor produced by the router. -/
structure PatternDescriptor where
  type : String
  text : String
  signals : List String
  confidence : ℚ
  features : List (String × FeatVal)
  style : List (String × FeatVal)
  layout_group : Option String
  domain_hint : String
  method : String
  paragraph_id : Option String
  id : String
  score : ℚ
deriving DecidableEq

/-- Python `a or b` for an optional string: `None` and `""` fall through. -/
def pyOrStr (a : Option String) (b : String) : String :=
  match a with
  | some s => if s = "" then b else s
  | none => b

/-- `PatternDescriptor.__init__(...)` with its `or`-defaults: `type` is
`type or class_ or "UNKNOWN"`, `text`/`signals`/`features`/`style` default
to empty, and `id` records the allocation address. -/
def mkPatternDescriptor (addr : Nat) (text : Option String)
    (type? : Option String) (class? : Option String)
    (signals : Option (List String)) (confidence : ℚ)
    (features : Option (List (String × FeatVal)))
    (style : Option (List (String × FeatVal)))
    (layout_group : Option String) (domain_hint : String) (method : String)
    (paragraph_id : Option String) (score : ℚ) : PatternDescriptor :=
  { type := pyOrStr type? (pyOrStr class? "UNKNOWN")
    text := text.getD ""
    signals := signals.getD []
    confidence := confidence
    features := features.getD []
    style := style.getD []
    layout_group := layout_group
    domain_hint := domain_hint
    method := method
    paragraph_id := paragraph_id
    id := "pat_" ++ toString addr
    score := score }

/-- All the fields of a descriptor except the identity field `id`. -/
def pdCore (p : PatternDescriptor) :
    String × String × List String × ℚ × List (String × FeatVal) ×
      List (String × FeatVal) × Option String × String × String ×
      Option String × ℚ :=
  (p.type, p.text, p.signals, p.confidence, p.features, p.style,
   p.layout_group, p.domain_hint, p.method, p.paragraph_id, p.score)

/-- The detector outputs `coerce_to_descriptor` can receive from the
modelled call sites (the router and the detectors): every `isinstance`
branch of the source that a modelled caller can reach has a constructor
here.  Raw `dict`s and the `HeadingForm`/`ParagraphForm` enums are
produced by no modelled code path and have no constructor. -/
inductive RawDet where
  | pd (p : PatternDescriptor)
  | str (s : String)
  | strList (l : List String)
  | exactList (l : List ExactDetection)
  | headingDet (d : HeadingDetection)
  | headingList (l : List HeadingDetection)
  | listDet (d : ListDetection)
  | listList (l : List ListDetection)
  | paraDet (d : ParagraphDetection)
  | paraList (l : List ParagraphDetection)
  | tableDet (d : TableDetection)
  | tableList (l : List TableDetection)
  | calloutDet (d : DetectedCallout)
  | calloutList (l : List DetectedCallout)
  | semPred (p : SemanticPrediction)
  | semList (l : List SemanticPrediction)
  | regexDet (d : RegexDetection)

/-- Model of Python `str(raw)` in the final fallback branch (the repr of a
detector output; reached only when the caller passed falsy `text`, which
no modelled flow does). -/
def pyReprRawDet : RawDet → String := fun _ => "<detection>"

/-- `domain or "GENERIC"`. -/
def pyOrDomain (domain : Option String) : String := pyOrStr domain "GENERIC"

/-- The string branch of `coerce_to_descriptor` (exact/regex signals give
confidence 1.0, anything else 0.0). -/
def coerceStr (addr : Nat) (raw : String) (signal : String)
    (text : Option String) (domain : Option String) : PatternDescriptor :=
  mkPatternDescriptor addr none (some raw) none (some [signal])
    (if signal = "EXACT" || signal = "REGEX" then 1 else 0)
    (some [("text", .s (text.getD ""))]) none none (pyOrDomain domain)
    "heuristic" none 1

/-- The `ParagraphDetection` branch (its `features` carry the method
tag). -/
def coerceParaDet (addr : Nat) (d : ParagraphDetection) (signal : String)
    (text : Option String) (domain : Option String) : PatternDescriptor :=
  mkPatternDescriptor addr none (some d.label) none (some [signal]) d.score
    (some [("text", .s (text.getD "")), ("line_idx", .n d.line_idx),
           ("method", .s d.method)])
    none none (pyOrDomain domain) "heuristic" none 1

/-- The `HeadingDetection` branch. -/
def coerceHeadingDet (addr : Nat) (d : HeadingDetection) (signal : String)
    (text : Option String) (domain : Option String) : PatternDescriptor :=
  mkPatternDescriptor addr none (some d.label) none (some [signal]) d.score
    (some [("text", .s (text.getD "")), ("line_idx", .n d.line_idx)])
    none none (pyOrDomain domain) "heuristic" none 1

/-- The `ListDetection` branch. -/
def coerceListDet (addr : Nat) (d : ListDetection) (signal : String)
    (text : Option String) (domain : Option String) : PatternDescriptor :=
  mkPatternDescriptor addr none (some d.label) none (some [signal]) d.score
    (some [("text", .s (text.getD "")), ("line_idx", .n d.line_idx)])
    none none (pyOrDomain domain) "heuristic" none 1

/-- The `TableDetection` branch. -/
def coerceTableDet (addr : Nat) (d : TableDetection) (signal : String)
    (text : Option String) (domain : Option String) : PatternDescriptor :=
  mkPatternDescriptor addr none (some d.label) none (some [signal]) d.score
    (some [("text", .s (text.getD "")), ("line_idx", .n d.line_idx)])
    none none (pyOrDomain domain) "heuristic" none 1

/-- The callout-detection branch (the source spells the class
`CalloutDetection`; callouts.py defines it as `DetectedCallout`). -/
def coerceCalloutDet (addr : Nat) (d : DetectedCallout) (signal : String)
    (text : Option String) (domain : Option String) : PatternDescriptor :=
  mkPatternDescriptor addr none (some d.label) none (some [signal]) d.score
    (some [("text", .s (text.getD "")), ("line_idx", .n d.line_idx)])
    none none (pyOrDomain domain) "heuristic" none 1

/-- The `SemanticPrediction` branch: `SemanticPrediction` has no `label`
attribute, so the type is always `"P-BODY"`; the signal list is hardcoded
to `["SEMANTIC"]`. -/
def coerceSemPred (addr : Nat) (p : SemanticPrediction)
    (domain : Option String) : PatternDescriptor :=
  mkPatternDescriptor addr none (some "P-BODY") none (some ["SEMANTIC"])
    p.score (some [("title", .s p.title)]) (some [("pStyle", .s "Normal")])
    none (pyOrDomain domain) "heuristic" none 1

/-- The `RegexDetection` branch. -/
def coerceRegexDet (addr : Nat) (d : RegexDetection) (signal : String)
    (domain : Option String) : PatternDescriptor :=
  mkPatternDescriptor addr none (some d.label) none (some [signal]) d.score
    (some [("text", .s d.title), ("pattern", .s d.pattern)]) none none
    (pyOrDomain domain) d.method none 1

/-- The final fallback branch of `coerce_to_descriptor`: an `UNKNOWN`
descriptor with confidence 0.0 (this is where a nonempty list of exact
`Detection`s lands, since it matches none of the `isinstance` checks). -/
def coerceFallback (addr : Nat) (raw : RawDet) (signal : String)
    (text : Option String) (domain : Option String) : PatternDescriptor :=
  mkPatternDescriptor addr none (some "UNKNOWN") none (some [signal]) 0
    (some [("text", .s (pyOrStr text (pyReprRawDet raw)))]) none none
    (pyOrDomain domain) "heuristic" none 1

/-- First-of-equal-maxima maximum by a rational key (Python `max` with a
`key=` function). -/
def maxByScore {α : Type} (key : α → ℚ) (h : α) (t : List α) : α :=
  t.foldl (fun best r => if key best < key r then r else best) h

/-- `coerce_to_descriptor(raw, signal, text, features, domain)` from
pattern_descriptor.py.  The `features` argument is accepted and read by no
branch, exactly as in the source.  Dispatch follows the source's
`isinstance` order; a nonempty homogeneous list is reduced to its
highest-scoring element (first element for string lists) and coerced like
the single value; empty lists fall through to the final fallback. -/
def coerce_to_descriptor (addr : Nat) (raw : RawDet) (signal : String)
    (text : Option String) (features : Option (List (String × FeatVal)))
    (domain : Option String) : PatternDescriptor :=
  match raw with
  | .pd p => p
  | .str s => coerceStr addr s signal text domain
  | .strList (b :: _) => coerceStr addr b signal text domain
  | .paraDet d => coerceParaDet addr d signal text domain
  | .headingDet d => coerceHeadingDet addr d signal text domain
  | .listDet d => coerceListDet addr d signal text domain
  | .tableDet d => coerceTableDet addr d signal text domain
  | .calloutDet d => coerceCalloutDet addr d signal text domain
  | .semPred p => coerceSemPred addr p domain
  | .semList (h :: t) =>
    coerceSemPred addr (maxByScore SemanticPrediction.score h t) domain
  | .headingList (h :: t) =>
    coerceHeadingDet addr (maxByScore HeadingDetection.score h t) signal
      text domain
  | .listList (h :: t) =>
    coerceListDet addr (maxByScore ListDetection.score h t) signal text domain
  | .paraList (h :: t) =>
    coerceParaDet addr (maxByScore ParagraphDetection.score h t) signal
      text domain
  | .tableList (h :: t) =>
    coerceTableDet addr (maxByScore TableDetection.score h t) signal
      text domain
  | .calloutList (h :: t) =>
    coerceCalloutDet addr (maxByScore DetectedCallout.score h t) signal
      text domain
  | .regexDet d => coerceRegexDet addr d signal domain
  | r => coerceFallback addr r signal text domain

/-! ## Router (analysis/matcher.py)

matcher.py builds `MATCHERS` with `heading_detector.match`,
`paragraph_detector.match` and `semantic_classifier.match`, none of which
exist in the respective source files (importing matcher.py as written
raises `AttributeError`).  The heading and paragraph entries are modelled
below from the spec; the semantic entry is taken as a parameter of
`route_match` (its natural shim would also need a candidate list the
router never passes). -/

/-- Modelled from the spec: matcher.py references `heading_detector.match`,
which heading_detector.py does not define.  The spec's detector contract
(`lines, config → ordered detections`, report threshold 0.55) and the
sibling entrypoints (`list_detector.match`, `table_detector.match`,
`callouts.match`, and the `make_match` factory) determine the shim as
`detect_headings` at its defaults. -/
def heading_detector_match (lines : PyLines) : List HeadingDetection :=
  detect_headings lines 0.55 "heading" BASE_CLUES

/-- Modelled from the spec: matcher.py references
`paragraph_detector.match`, which paragraph_detector.py does not define;
as for headings, the shim is `detect_paragraphs` at its defaults. -/
def paragraph_detector_match (lines : PyLines) : List ParagraphDetection :=
  detect_paragraphs lines 0.55 "paragraph"

/-- The `HEURISTIC_ORDER` of matcher.py. -/
def HEURISTIC_ORDER : List String :=
  ["heading", "list", "paragraph", "table", "callout"]

/-- One heuristic stage of the router: run the detector registered under
`key` and return its raw output when it is truthy (a nonempty list). -/
def heuristic_match (key : String) (lines : PyLines) : Option RawDet :=
  if key = "heading" then
    let m := heading_detector_match lines
    if m.isEmpty then none else some (.headingList m)
  else if key = "list" then
    let m := list_detector_match lines 0.55
    if m.isEmpty then none else some (.listList m)
  else if key = "paragraph" then
    let m := paragraph_detector_match lines
    if m.isEmpty then none else some (.paraList m)
  else if key = "table" then
    let m := table_detector_match lines 0.55
    if m.isEmpty then none else some (.tableList m)
  else if key = "callout" then
    let m := callouts_match lines 0.5
    if m.isEmpty then none else some (.calloutList m)
  else none

/-- Python truthiness of the router's optional string arguments. -/
def optStrTruthy (o : Option String) : Bool :=
  o.elim false (fun s => decide (s ≠ ""))

/-- Python truthiness of the router's optional title list. -/
def optListTruthy (o : Option (List String)) : Bool :=
  o.elim false (fun l => !l.isEmpty)

/-- `route_match(text, structure, features, domain, titles_config, signal)`
from matcher.py.  `semanticStage` models the (missing)
`semantic_classifier.match` entry of `MATCHERS`; `addr` is the CPython
address of the descriptor object the call allocates.  Flow 1 coerces the
raw `text` string under the explicit signal; flow 2 runs exact →
heuristic(s) → regex → semantic → terminal-unknown exactly as the source
is laid out (including the extra regex call inside the no-structure `else`
block at matcher.py line 95 and the shared one at line 110). -/
def route_match (semanticStage : String → List SemanticPrediction)
    (addr : Nat) (text : String) (structure? : Option String)
    (features : Option (List (String × FeatVal))) (domain : Option String)
    (titles_config : Option (List String)) (signal : Option String) :
    PatternDescriptor :=
  if optStrTruthy signal then
    coerce_to_descriptor addr (.str text) (signal.getD "") (some text)
      features domain
  else
    let exactRes : Option PatternDescriptor :=
      if optListTruthy titles_config then
        let m := exact_matcher_match (.ofStr text) titles_config
        if m.isEmpty then none
        else some (coerce_to_descriptor addr (.exactList m) "EXACT"
          (some text) features domain)
      else none
    match exactRes with
    | some d => d
    | none =>
      let structValid := optStrTruthy structure? &&
        HEURISTIC_ORDER.contains (structure?.getD "")
      let stage2 : Option PatternDescriptor :=
        if structValid then
          (heuristic_match (structure?.getD "") (.ofStr text)).map
            (fun raw => coerce_to_descriptor addr raw
              ("HEURISTIC-" ++ pyUpper (structure?.getD "")) (some text)
              features domain)
        else
          match HEURISTIC_ORDER.findSome? (fun key =>
            (heuristic_match key (.ofStr text)).map (fun raw => (key, raw))) with
          | some hit =>
            some (coerce_to_descriptor addr hit.2
              ("HEURISTIC-" ++ pyUpper hit.1) (some text) features domain)
          | none =>
            (regex_maker_match (.ofStr text)).map (fun det =>
              coerce_to_descriptor addr (.regexDet det) "REGEX" (some text)
                features domain)
      match stage2 with
      | some d => d
      | none =>
        match regex_maker_match (.ofStr text) with
        | some det =>
          coerce_to_descriptor addr (.regexDet det) "REGEX" (some text)
            features domain
        | none =>
          let m := semanticStage text
          if !m.isEmpty then
            coerce_to_descriptor addr (.semList m) "SEMANTIC" (some text)
              features domain
          else
            mkPatternDescriptor addr none (some "UNKNOWN") none
              (some ["FALLBACK"]) 0 (some [("text", .s text)]) none none
              (pyOrDomain domain) "heuristic" none 1


/-! ## Domain scoring (core/analysis/domain_scoring.py)

`math.exp` and `difflib.SequenceMatcher`'s ratio are external-library
functions, taken as the parameters `expf` and `fuzzyRatio`; compiled
keyword/regex/stopword patterns of a pack are modelled as the boolean
match predicates they denote. -/

/-- `_normalize_heading_key(s)`: strip, non-word non-space characters to
space, whitespace runs collapsed, uppercased. -/
def normalizeHeadingKey (s : String) : String :=
  let s1 := pyStrip s
  let s2 := String.mk (s1.data.map (fun c =>
    if !(isWordChar c || isPySpace c) then ' ' else c))
  pyUpper (String.mk (collapseWsGo false s2.data))

/-- `_normalize_for_scan(s)`: strip, collapse whitespace, uppercase
(punctuation kept). -/
def normalizeForScan (s : String) : String :=
  pyUpper (String.mk (collapseWsGo false (pyStrip s).data))

/-- The `DomainPack` dataclass: normalized heading keys plus compiled
keyword/regex/stopword patterns, the latter three modelled as the match
predicates the compiled `re.Pattern`s denote. -/
structure DomainPack where
  name : String
  headings_exact : List String
  headings_fuzzy : List String
  keywords : List (String → Bool)
  regexes : List (String → Bool)
  stopwords : List (String → Bool)

/-- The `_DEFAULT_WEIGHTS` mapping. -/
structure DomainWeights where
  exact : ℚ
  fuzzy : ℚ
  regex : ℚ
  kw : ℚ
  kw_cap : ℚ
  stop : ℚ

/-- `_DEFAULT_WEIGHTS` from domain_scoring.py. -/
def defaultWeights : DomainWeights :=
  { exact := 1.00, fuzzy := 0.60, regex := 0.50, kw := 0.10,
    kw_cap := 0.40, stop := 0.30 }

/-- `_best_fuzzy_ratio(source_norm, candidates_norm)`: best ratio, with
the source's early break once a new best reaches 0.98. -/
def bestFuzzyGo (fuzzyRatio : String → String → ℚ) (src : String) :
    List String → ℚ → ℚ
  | [], best => best
  | c :: cs, best =>
    let r := fuzzyRatio src c
    if best < r then
      if (98 : ℚ)/100 ≤ r then r else bestFuzzyGo fuzzyRatio src cs r
    else bestFuzzyGo fuzzyRatio src cs best

/-- The keyword-counting loop of `_score_against_pack`, with its early
break once the accumulated contribution reaches the cap. -/
def kwHitsGo (w_kw w_cap : ℚ) (text : String) :
    List (String → Bool) → Nat → Nat
  | [], h => h
  | k :: ks, h =>
    if k text then
      let h' := h + 1
      if w_cap ≤ (h' : ℚ) * w_kw then h' else kwHitsGo w_kw w_cap text ks h'
    else kwHitsGo w_kw w_cap text ks h

/-- `_score_against_pack(text, lf, pack, weights)`: exact heading hit,
fuzzy heading hit above the 0.82 floor, regex hit, capped keyword
contribution, stopword penalty, small LineFeatures bonus; floored at 0.
(The source also computes `scan_upper = _normalize_for_scan(text)` and
never reads it.) -/
def score_against_pack (fuzzyRatio : String → String → ℚ) (text : String)
    (lf : Option LineFeatures) (pack : DomainPack) (w : DomainWeights) : ℚ :=
  if text = "" then 0
  else
    let heading_key := normalizeHeadingKey text
    let s1 : ℚ := if pack.headings_exact.contains heading_key then w.exact else 0
    let s2 := s1 +
      (if !pack.headings_fuzzy.isEmpty then
        let best := bestFuzzyGo fuzzyRatio heading_key pack.headings_fuzzy 0
        if (82 : ℚ)/100 ≤ best then w.fuzzy * best else 0
       else 0)
    let s3 := s2 + (if pack.regexes.any (fun r => r text) then w.regex else 0)
    let kw_hits := kwHitsGo w.kw w.kw_cap text pack.keywords 0
    let s4 := s3 + min w.kw_cap ((kw_hits : ℚ) * w.kw)
    let s5 := s4 - (if pack.stopwords.any (fun r => r text) then w.stop else 0)
    let s6 := s5 +
      (match lf with
       | some f =>
         if f.has_allcaps_word && decide (f.titlecaseRate < (1 : ℚ)/2)
         then 0.02 else 0
       | none => 0)
    max s6 0

/-- `_softmax(scores, temperature)`: subtract the max, exponentiate at the
given temperature (non-positive temperatures reset to 1), divide by the
sum (`or 1.0` when the sum is zero). -/
def softmax (expf : ℚ → ℚ) (scores : List (String × ℚ))
    (temperature : ℚ) : List (String × ℚ) :=
  match scores with
  | [] => []
  | h :: t =>
    let T := if temperature ≤ 0 then 1 else temperature
    let m := ((h :: t).map Prod.snd).foldl max h.2
    let exps := (h :: t).map (fun p => (p.1, expf ((p.2 - m) / T)))
    let z0 := (exps.map Prod.snd).sum
    let z := if z0 = 0 then 1 else z0
    exps.map (fun p => (p.1, p.2 / z))

/-- The `DomainScores` dataclass: softmax-normalized scores, raw
pre-softmax scores, and the ranked list. -/
structure DomainScores where
  scores : List (String × ℚ)
  raw : List (String × ℚ)
  top : List (String × ℚ)

/-- `score_line_domain(text, packs, lf, weights, temperature)`: empty
`DomainScores` without packs, else raw scores per pack, softmax, and the
value-descending (stable) ranking. -/
def score_line_domain (expf : ℚ → ℚ) (fuzzyRatio : String → String → ℚ)
    (text : String) (packs : List (String × DomainPack))
    (lf : Option LineFeatures) (w : DomainWeights) (temperature : ℚ) :
    DomainScores :=
  if packs.isEmpty then { scores := [], raw := [], top := [] }
  else
    let raw := packs.map (fun p =>
      (p.1, score_against_pack fuzzyRatio text lf p.2 w))
    let norm := softmax expf raw temperature
    let top := norm.mergeSort (fun a b => decide (b.2 ≤ a.2))
    { scores := norm, raw := raw, top := top }

/-- `ema_prior_update(prev_prior, current_line_scores, alpha=0.2)`: blend
`(1-α)·prev + α·current` pointwise over the union of the key sets, then
divide every value by their sum (`or 1.0` when that sum is zero).
Python's set-union iteration order is unspecified; the model lists the
current keys first, then the remaining previous keys. -/
def ema_prior_update (prev_prior : Option (List (String × ℚ)))
    (current : List (String × ℚ)) (alpha : ℚ) : List (String × ℚ) :=
  let prevL := prev_prior.getD []
  let currKeys := current.map Prod.fst
  let keys := currKeys ++ (prevL.map Prod.fst).filter (fun k => !currKeys.contains k)
  let out := keys.map (fun k =>
    (k, (1 - alpha) * ((prevL.lookup k).getD 0) +
        alpha * ((current.lookup k).getD 0)))
  let s0 := (out.map Prod.snd).sum
  let s := if s0 = 0 then 1 else s0
  out.map (fun p => (p.1, p.2 / s))

/-! ## Section assembler (core/config/utils/section_builder.py)

The builder mutates heap objects: each `Section`'s `anchor` aliases the
descriptor passed in, and `section.anchor.features["level"] = curr_level`
writes through that alias.  The model addresses sections by their index
`i` in the zipped input and threads the shared state explicitly:
`featLevel` is the `"level"` entry of descriptor `i`'s features dict
(`none` = key absent), `children i` the subsection indices of section
`i`, `roots` the root list, `stack` the ancestor stack with its top at
the head.

The detections consumed here carry `level`/`numbering` attributes (the
source's `HeadingDetection` dataclass defines neither, but every call
site reads them; the claim supplies the levels). -/

/-- A heading detection as the section builders consume it. -/
structure SbDetection where
  level : Option Nat
  numbering : Option String := none
deriving DecidableEq

/-- Python `x or 1` on an optional level. -/
def orOne (v : Option Nat) : Nat :=
  match v with
  | some 0 => 1
  | none => 1
  | some k => k

/-- The builder state (see the section comment). -/
structure SbState where
  roots : List Nat
  children : List (List Nat)
  featLevel : List (Option Nat)
  stack : List Nat
deriving DecidableEq

/-- Append child `i` under section `j`. -/
def appendChild (children : List (List Nat)) (j i : Nat) :
    List (List Nat) :=
  children.set j (children.getD j [] ++ [i])

/-- The climb loop of the shallower-heading branch:
`while len(stack) > 1 and (top.features.get("level", prev_level) or 1) >=
curr_level: pop`. -/
def climbGo (featLevel : List (Option Nat)) (prev_level curr_level : Nat) :
    List Nat → List Nat
  | [] => []
  | [x] => [x]
  | x :: y :: rest =>
    let lvl := orOne (some (((featLevel.getD x none).getD prev_level)))
    if curr_level ≤ lvl then climbGo featLevel prev_level curr_level (y :: rest)
    else x :: y :: rest

/-- One iteration of `build_sections_from_headings`'s loop over
`zip(detections, descriptors)`: the first heading becomes a root and
`continue`s (skipping the level write-back); otherwise the current level
is compared against the top's recorded level (defaulting, when the top
never had one recorded, to the CURRENT detection's level), and the
deeper/equal/shallower branches run; finally `curr_level` is written into
descriptor `i`'s features. -/
def build_sections_step (det : SbDetection) (i : Nat) (st : SbState) :
    SbState :=
  match st.stack with
  | [] => { st with roots := st.roots ++ [i], stack := [i] }
  | j :: _ =>
    let prev_level := orOne ((st.featLevel.getD j none).orElse
      (fun _ => det.level))
    let curr_level := orOne det.level
    let st' :=
      if prev_level < curr_level then
        { st with children := appendChild st.children j i,
                  stack := i :: st.stack }
      else if curr_level = prev_level then
        match st.stack.tail with
        | k :: rest =>
          { st with children := appendChild st.children k i,
                    stack := i :: k :: rest }
        | [] => { st with roots := st.roots ++ [i], stack := [i] }
      else
        match climbGo st.featLevel prev_level curr_level st.stack with
        | k :: rest =>
          { st with children := appendChild st.children k i,
                    stack := i :: k :: rest }
        | [] => { st with roots := st.roots ++ [i], stack := [i] }
    { st' with featLevel := st'.featLevel.set i (some curr_level) }

/-- `build_sections_from_headings(detections, descriptors)` from
core/config/utils/section_builder.py, as the final builder state:
`descFeatLevels` gives the initial `"level"` entries of the aligned
descriptors' features dicts (`none` when absent, as for descriptors fresh
from `route_match`). -/
def build_sections_from_headings (dets : List SbDetection)
    (descFeatLevels : List (Option Nat)) : SbState :=
  dets.enum.foldl (fun st p => build_sections_step p.2 p.1 st)
    { roots := [], children := List.replicate dets.length [],
      featLevel := descFeatLevels, stack := [] }

/-- The spec's Section Assembler (spec §4.6), written from the spec's
words for comparison with the source: stack of (index, level); empty
stack → new root; strictly deeper → child of the top; equal → pop once,
attach under the new top or as a root; shallower → pop until the top's
level is strictly less than the current one (or the stack empties),
attach there or as a root; missing levels default to 1. -/
def specOutlineClimb (curr : Nat) : List (Nat × Nat) → List (Nat × Nat)
  | [] => []
  | (x, l) :: rest =>
    if curr ≤ l then specOutlineClimb curr rest else (x, l) :: rest

/-- One step of the spec's Section Assembler. -/
def specOutlineStep (lvl? : Option Nat) (i : Nat)
    (st : List Nat × List (List Nat) × List (Nat × Nat)) :
    List Nat × List (List Nat) × List (Nat × Nat) :=
  let curr := lvl?.getD 1
  let roots := st.1
  let children := st.2.1
  let stack := st.2.2
  match stack with
  | [] => (roots ++ [i], children, [(i, curr)])
  | (j, l) :: rest =>
    if l < curr then
      (roots, appendChild children j i, (i, curr) :: (j, l) :: rest)
    else if l = curr then
      match rest with
      | (k, kl) :: rest' =>
        (roots, appendChild children k i, (i, curr) :: (k, kl) :: rest')
      | [] => (roots ++ [i], children, [(i, curr)])
    else
      match specOutlineClimb curr ((j, l) :: rest) with
      | (k, kl) :: rest' =>
        (roots, appendChild children k i, (i, curr) :: (k, kl) :: rest')
      | [] => (roots ++ [i], children, [(i, curr)])

/-- The spec's Section Assembler over a level sequence: returns the root
list and the children table. -/
def specOutlineForest (levels : List (Option Nat)) :
    List Nat × List (List Nat) :=
  let out := levels.enum.foldl (fun st p => specOutlineStep p.2 p.1 st)
    (([] : List Nat), (List.replicate levels.length ([] : List Nat)),
      ([] : List (Nat × Nat)))
  (out.1, out.2.1)

example :
    (build_sections_from_headings
      [{ level := some 1 }, { level := some 2 }, { level := some 2 },
       { level := some 1 }]
      [none, none, none, none]).roots = [0, 1, 2] := by decide

example :
    (specOutlineForest [some 1, some 2, some 2, some 1]).1 = [0, 3] := by decide

example :
    (specOutlineForest [some 1, some 2, some 2, some 1]).2.getD 0 [] = [1, 2] := by
  decide


/-- The regex entrypoint on a bare string always yields exactly this one
detection (the wrapped one-line fallback). -/
def regexDetOfStr (s : String) : RegexDetection :=
  { line_idx := 0, title := pyStrip s,
    score := regexScore (normalize_to_regex (pyStrip s)),
    pattern := normalize_to_regex (pyStrip s),
    label := "REGEX-" ++ classify_regex (normalize_to_regex (pyStrip s)) (pyStrip s),
    method := "regex" }

/-- Raw detector outputs whose coercion always carries exactly the given
signal: everything the router's exact/heuristic/regex stages can produce
(pass-through descriptors and semantic predictions are the exceptions). -/
def rawSignalsFixed : RawDet → Bool
  | .pd _ => false
  | .semPred _ => false
  | .semList _ => false
  | _ => true

/-- A one-pack configuration whose exact-heading list and regex list both
hit the line "FOO": the raw pack score stacks the exact and regex weights. -/
def c5Pack : DomainPack :=
  { name := "P", headings_exact := ["FOO"], headings_fuzzy := [],
    keywords := [], regexes := [fun s => s = "FOO"], stopwords := [] }

/-- Spec-side definition for C9: the union of the key sets, current keys
first (Python set order is unspecified; the code iterates the blended
union in this order). -/
def specEmaKeys (prevL current : List (String × ℚ)) : List String :=
  let currKeys := current.map Prod.fst
  currKeys ++ (prevL.map Prod.fst).filter (fun k => !currKeys.contains k)

/-- Spec-side definition for C9: the pointwise EMA blend
(1-alpha)*prev(k) + alpha*current(k), absent keys read as 0. -/
def specEmaBlend (prevL current : List (String × ℚ)) (alpha : ℚ)
    (k : String) : ℚ :=
  (1 - alpha) * ((prevL.lookup k).getD 0) +
    alpha * ((current.lookup k).getD 0)


/-! ## Claims -/

/-- C1: the spec's priority law says that whenever the Exact Matcher would
fire for a line, `route_match` (no explicit signal) returns a descriptor
with signal list `["EXACT"]`.  The code violates it: the router hands the
bare line string to the exact matcher, whose `coerce_to_lines` turns a
string into zero lines, so the exact stage can never fire.  At candidates
`["Summary"]` and line `"Summary"` the Exact Matcher itself (given the
line list) does fire, the router's exact stage sees no lines, and the
router answers with signal `REGEX` instead of `EXACT`. -/
theorem C1_router_never_exact :
    find_exact_matches (.ofList ["Summary"]) ["Summary"] ≠ [] ∧
    exact_matcher_match (.ofStr "Summary") (some ["Summary"]) = [] ∧
    (route_match (fun _ => []) 0 "Summary" none none none
        (some ["Summary"]) none).signals = ["REGEX"] := by
  refine ⟨by decide, by decide, by decide⟩

/-- C2: on heading levels [1,2,2,1] the spec's Section Assembler yields 2
roots, the first with 2 children, the second with none — and the spec's
algorithm, transcribed as `specOutlineForest`, does exactly that.  The
source's `build_sections_from_headings` does not: with descriptors fresh
from the router (no `"level"` in their features) it returns 3 roots, and
with level-seeded descriptors it returns a single root with 3 children,
because the climb loop's `len(stack) > 1` guard never pops the last stack
entry and the first iteration's `continue` skips the level write-back. -/
theorem C2_section_builder_shape :
    (build_sections_from_headings
        [{ level := some 1 }, { level := some 2 }, { level := some 2 },
         { level := some 1 }] [none, none, none, none]).roots = [0, 1, 2] ∧
    (build_sections_from_headings
        [{ level := some 1 }, { level := some 2 }, { level := some 2 },
         { level := some 1 }]
        [some 1, some 2, some 2, some 1]).roots = [0] ∧
    (build_sections_from_headings
        [{ level := some 1 }, { level := some 2 }, { level := some 2 },
         { level := some 1 }]
        [some 1, some 2, some 2, some 1]).children.getD 0 [] = [1, 2, 3] ∧
    (specOutlineForest [some 1, some 2, some 2, some 1]).1 = [0, 3] ∧
    (specOutlineForest [some 1, some 2, some 2, some 1]).2.getD 0 [] = [1, 2] ∧
    (specOutlineForest [some 1, some 2, some 2, some 1]).2.getD 3 [] = [] := by
  refine ⟨by decide, by decide, by decide, by decide, by decide, by decide⟩

/-- C3: with candidates `["Summary"]` and line `"Summary:"` the Exact
Matcher itself fires at confidence 1.0 (trailing colon stripped), but the
router's result has confidence 0.3 and signal `REGEX`: the exact stage
receives the bare string (zero lines), and even a nonempty exact result
would be coerced through the final fallback branch at confidence 0.0,
since exact `Detection`s match no `isinstance` branch of
`coerce_to_descriptor`. -/
theorem C3_exact_confidence_lost :
    find_exact_matches (.ofList ["Summary:"]) ["Summary"] =
      [{ line_idx := 0, title := "Summary", score := 1, method := "exact" }] ∧
    (route_match (fun _ => []) 0 "Summary:" none none none
        (some ["Summary"]) none).signals = ["REGEX"] ∧
    (route_match (fun _ => []) 0 "Summary:" none none none
        (some ["Summary"]) none).confidence = 0.3 ∧
    ((0.3 : ℚ) = 1 → False) := by
  refine ⟨by decide, by decide, rfl, by norm_num⟩

/-- C6: `normalize_line` is not idempotent.  On the three-code-point input
`e`, U+200D (zero-width joiner), U+0301 (combining acute): NFKC leaves the
string unchanged (the joiner, combining class 0, blocks composition), the
invisible-mark pass then strips the joiner, and the output `e`+U+0301 is
no longer NFKC-normal — a second `normalize_line` composes it to the
single code point é. -/
theorem C6_normalize_line_not_idempotent :
    normalize_line "e\u200d\u0301" = "e\u0301" ∧
    normalize_line (normalize_line "e\u200d\u0301") = "\u00e9" ∧
    normalize_line (normalize_line "e\u200d\u0301") ≠
      normalize_line "e\u200d\u0301" := by
  refine ⟨by decide, by decide, by decide⟩

/-- C7: for the line `"- Buy milk"`, the list heuristic itself scores 0.9
(its bullet clue fires on a line list), but the router never reaches it:
the bare string coerces to zero lines inside every heuristic detector, so
the pipeline's answer comes from the regex fallback — type
`REGEX-L-BULLET` at confidence 0.3, below the claimed 0.55, not a
`list-bullet` descriptor from the list heuristic. -/
theorem C7_list_heuristic_bypassed :
    score_list_line "- Buy milk" = 0.9 ∧
    list_detector_match (.ofStr "- Buy milk") 0.55 = [] ∧
    (route_match (fun _ => []) 0 "- Buy milk" none none none none none).type =
      "REGEX-L-BULLET" ∧
    (route_match (fun _ => []) 0 "- Buy milk" none none none none none).signals =
      ["REGEX"] ∧
    (route_match (fun _ => []) 0 "- Buy milk" none none none none
        none).confidence = 0.3 ∧
    ((0.55 : ℚ) ≤ 0.3 → False) := by
  refine ⟨rfl, by decide, by decide, by decide, rfl, by norm_num⟩

/-- The heading score of `"1. Introduction"` (with the features the
detector extracts) is exactly 1: the `num_heading` and `title_after_num`
clue weights 0.30 + 0.39 plus the 0.50 synergy bonus, clamped at 1. -/
theorem score_heading_intro_eq_one :
    score_heading "1. Introduction"
      (some (featuresAsDict (extract_line_features "1. Introduction")))
      BASE_CLUES = 1 := by
  rw [show score_heading "1. Introduction"
      (some (featuresAsDict (extract_line_features "1. Introduction")))
      BASE_CLUES = max 0 (min 1 (0 + 0.30 + 0.39 + 0 + 0 - 0 + 0.50)) from rfl]
  norm_num

/-- The heading detector reports `"1. Introduction"` as one detection with
the generic label `"heading"` and score 1. -/
theorem detect_headings_intro :
    detect_headings (.ofList ["1. Introduction"]) 0.55 "heading" BASE_CLUES =
      [{ line_idx := 0, label := "heading", score := 1,
         method := "heuristic" }] := by
  have hs := score_heading_intro_eq_one
  simp only [detect_headings, coerce_to_lines, List.enum, List.enumFrom,
    List.filterMap_cons, List.filterMap_nil, hs]
  norm_num

/-- C8 counterexample: the descriptor that the heading-heuristic path
produces for `"1. Introduction"` has type `"heading"` (the detector's
fixed generic label), not `numbered-section` and not `heading-short`. -/
theorem C8_counterexample_type_is_generic :
    (coerce_to_descriptor 0
      (.headingList (detect_headings (.ofList ["1. Introduction"]) 0.55
        "heading" BASE_CLUES))
      "HEURISTIC-HEADING" (some "1. Introduction") none none).type =
        "heading" ∧
    ("heading" = "numbered-section" → False) ∧
    ("heading" = "heading-short" → False) := by
  refine ⟨?_, by decide, by decide⟩
  rw [detect_headings_intro]
  rfl

/-- C8 (amended): on `"1. Introduction"` the heading heuristic fires both
the `num_heading` and `title_after_num` clues, the
`\x7bnum_heading, title_after_num\x7d` synergy set is fully fired (its 0.50
bonus enters the sum), the final score is 1 ≥ 0.55, and the resulting
descriptor — which carries the detector's generic label `"heading"`, the
code's only heading type — has confidence 1. -/
theorem C8_numbered_heading_synergy :
    (scoreHeadingFired "1. Introduction"
        (some (featuresAsDict (extract_line_features "1. Introduction")))
        BASE_CLUES).2 = ["num_heading", "title_after_num"] ∧
    (["num_heading", "title_after_num"].all (fun n =>
      (scoreHeadingFired "1. Introduction"
        (some (featuresAsDict (extract_line_features "1. Introduction")))
        BASE_CLUES).2.contains n)) = true ∧
    SYNERGY_RULES.getD 0 ([], 0) =
      (["num_heading", "title_after_num"], 0.50) ∧
    score_heading "1. Introduction"
      (some (featuresAsDict (extract_line_features "1. Introduction")))
      BASE_CLUES = 1 ∧
    (0.55 : ℚ) ≤ 1 ∧
    (coerce_to_descriptor 0
      (.headingList (detect_headings (.ofList ["1. Introduction"]) 0.55
        "heading" BASE_CLUES))
      "HEURISTIC-HEADING" (some "1. Introduction") none none).confidence = 1 ∧
    (coerce_to_descriptor 0
      (.headingList (detect_headings (.ofList ["1. Introduction"]) 0.55
        "heading" BASE_CLUES))
      "HEURISTIC-HEADING" (some "1. Introduction") none none).signals =
        ["HEURISTIC-HEADING"] := by
  refine ⟨by decide, by decide, ?_, score_heading_intro_eq_one, by norm_num,
    ?_, ?_⟩
  · constructor
  · rw [detect_headings_intro]; rfl
  · rw [detect_headings_intro]; rfl

/-- The allocation address entering a descriptor coercion only lands in
the `id` field: every other field is address-independent. -/
theorem pdCore_coerce_addr (a1 a2 : Nat) (raw : RawDet) (sig : String)
    (t : Option String) (f : Option (List (String × FeatVal)))
    (dom : Option String) :
    pdCore (coerce_to_descriptor a1 raw sig t f dom) =
      pdCore (coerce_to_descriptor a2 raw sig t f dom) := by
  cases raw <;> try rfl
  all_goals rename_i l
  all_goals cases l <;> rfl

/-- C4 counterexample: two separate `route_match` calls on the same input
allocate distinct descriptor objects, and `PatternDescriptor.__init__`
writes the object's own CPython address into `id` (`f"pat_{id(self)}"`) —
so the two results coexisting after the calls carry different `id` fields
and are not bit-identical. -/
theorem C4_counterexample_id_field :
    (route_match (fun _ => []) 1 "Hello" none none none none none).id =
      "pat_1" ∧
    (route_match (fun _ => []) 2 "Hello" none none none none none).id =
      "pat_2" ∧
    route_match (fun _ => []) 1 "Hello" none none none none none ≠
      route_match (fun _ => []) 2 "Hello" none none none none none := by
  refine ⟨by decide, by decide, fun h => ?_⟩
  exact absurd (congrArg PatternDescriptor.id h) (by decide)

/-- The regex detector never misses on a string input: `match` wraps the
string into a one-line list and `regex_fallback` emits a detection for
every line. -/
theorem regex_maker_match_ofStr (s : String) :
    regex_maker_match (.ofStr s) = some (regexDetOfStr s) := rfl

/-- C4 (amended): the router is deterministic in every field except the
identity field — for identical inputs (line, hint, features, domain,
candidate set, signal, and the same semantic stage), two calls agree on
type, text, signals, confidence, features, style, layout group, domain
hint, method, paragraph id and score; only `id`, which embeds the
allocation address of the freshly created descriptor object, can
differ. -/
theorem C4_router_deterministic_up_to_id
    (sem : String → List SemanticPrediction) (a1 a2 : Nat) (text : String)
    (structure? : Option String)
    (features : Option (List (String × FeatVal))) (domain : Option String)
    (titles : Option (List String)) (signal : Option String) :
    pdCore (route_match sem a1 text structure? features domain titles signal) =
      pdCore (route_match sem a2 text structure? features domain titles signal) := by
  simp only [route_match, regex_maker_match_ofStr]
  split_ifs
  all_goals try dsimp only
  all_goals try exact pdCore_coerce_addr a1 a2 _ _ _ _ _
  all_goals first
    | exact pdCore_coerce_addr a1 a2 _ _ _ _ _
    | (cases hB : heuristic_match (structure?.getD "") (PyLines.ofStr text) <;>
        dsimp only [Option.map] <;>
        exact pdCore_coerce_addr a1 a2 _ _ _ _ _)

/-- Coercion writes `[signal]` into the descriptor for every raw output
with a fixed signal (each detection branch, the string branches, and the
final fallback all use `signals=[signal]`). -/
theorem coerce_signals_of_fixed (addr : Nat) (raw : RawDet) (sig : String)
    (t : Option String) (f : Option (List (String × FeatVal)))
    (dom : Option String) (h : rawSignalsFixed raw = true) :
    (coerce_to_descriptor addr raw sig t f dom).signals = [sig] := by
  cases raw <;> try rfl
  case pd p => exact absurd h (by simp [rawSignalsFixed])
  case semPred p => exact absurd h (by simp [rawSignalsFixed])
  case semList l => exact absurd h (by simp [rawSignalsFixed])
  all_goals rename_i l
  all_goals cases l <;> rfl

/-- A heuristic stage only ever hands the coercion a heuristic detection
list. -/
theorem heuristic_match_fixed (key : String) (lines : PyLines)
    (raw : RawDet) (h : heuristic_match key lines = some raw) :
    rawSignalsFixed raw = true := by
  unfold heuristic_match at h
  split_ifs at h
  all_goals try exact Option.noConfusion h
  all_goals simp only [] at h
  all_goals split at h
  all_goals try exact Option.noConfusion h
  all_goals injection h with h
  all_goals subst h
  all_goals rfl

/-- No string of the form `HEURISTIC-…` is the terminal `FALLBACK`
signal. -/
theorem heuristic_signal_ne_fallback (x : String) :
    "HEURISTIC-" ++ x ≠ "FALLBACK" := by
  intro h
  have h2 : (10 : Nat) + x.length = 8 := by
    have h3 : ("HEURISTIC-" ++ x).length = "FALLBACK".length := by rw [h]
    rw [String.length_append] at h3
    exact h3
  omega

/-- Every pattern the regex fallback can emit scores at least 0.3. -/
theorem regexScore_ge (p : String) : (3 : ℚ)/10 ≤ regexScore p := by
  unfold regexScore
  split
  · norm_num
  · split <;> norm_num

/-- A fixed-signal coercion result never carries the terminal `FALLBACK`
signal list when its signal is not the string `FALLBACK`. -/
theorem signals_ne_fallback_of_fixed (addr : Nat) (raw : RawDet)
    (sig : String) (t : Option String)
    (f : Option (List (String × FeatVal))) (dom : Option String)
    (hfix : rawSignalsFixed raw = true) (hsig : sig ≠ "FALLBACK") :
    (coerce_to_descriptor addr raw sig t f dom).signals ≠ ["FALLBACK"] := by
  rw [coerce_signals_of_fixed addr raw sig t f dom hfix]
  intro h
  injection h with h1 _
  exact hsig h1

/-- C10: in auto-detect mode the regex fallback stage always produces a
detection of score at least 0.3, so the router's semantic stage is never
invoked (the result does not depend on it at all) and the terminal
`unknown` descriptor with signal `FALLBACK` is never returned. -/
theorem C10_semantic_and_terminal_unreachable
    (sem1 sem2 : String → List SemanticPrediction) (addr : Nat)
    (text : String) (structure? : Option String)
    (features : Option (List (String × FeatVal))) (domain : Option String)
    (titles : Option (List String)) :
    route_match sem1 addr text structure? features domain titles none =
      route_match sem2 addr text structure? features domain titles none ∧
    (route_match sem1 addr text structure? features domain titles none).signals ≠
      ["FALLBACK"] ∧
    regex_maker_match (.ofStr text) = some (regexDetOfStr text) ∧
    (3 : ℚ)/10 ≤ (regexDetOfStr text).score := by
  refine ⟨?_, ?_, rfl, regexScore_ge _⟩
  · simp only [route_match, regex_maker_match_ofStr]
  · simp only [route_match, regex_maker_match_ofStr]
    split_ifs
    all_goals try dsimp only
    all_goals try (apply signals_ne_fallback_of_fixed <;> first | rfl | decide)
    all_goals try
      (cases hB : heuristic_match (structure?.getD "") (PyLines.ofStr text) with
       | none =>
         dsimp only [Option.map]
         apply signals_ne_fallback_of_fixed <;> first | rfl | decide
       | some raw =>
         dsimp only [Option.map]
         exact signals_ne_fallback_of_fixed _ _ _ _ _ _
           (heuristic_match_fixed _ _ _ hB) (heuristic_signal_ne_fallback _))

/-- Clamped values lie in the unit interval. -/
theorem clamp01_bounds (x : ℚ) : 0 ≤ max 0 (min 1 x) ∧ max 0 (min 1 x) ≤ 1 :=
  ⟨le_max_left 0 _, max_le zero_le_one (min_le_left 1 x)⟩

/-- The heading score is clamped into [0,1] for every input. -/
theorem score_heading_bounds (text : String)
    (feats : Option (List (String × FeatVal))) (clues : List HeadingClue) :
    0 ≤ score_heading text feats clues ∧ score_heading text feats clues ≤ 1 := by
  refine ⟨?_, ?_⟩ <;>
    (unfold score_heading scoreHeadingFired; dsimp only; split <;> try dsimp only)
  · norm_num
  · exact (clamp01_bounds _).1
  · norm_num
  · exact (clamp01_bounds _).2

/-- The list score is one of 0.9, 0.8, 0.6, 0. -/
theorem score_list_line_bounds (text : String) :
    0 ≤ score_list_line text ∧ score_list_line text ≤ 1 := by
  refine ⟨?_, ?_⟩ <;> (unfold score_list_line; split_ifs <;> try norm_num) <;>
    (split_ifs <;> norm_num)

/-- The paragraph score is clamped into [0,1]. -/
theorem score_paragraph_bounds (text : String)
    (feats : Option (List (String × FeatVal))) :
    0 ≤ score_paragraph text feats ∧ score_paragraph text feats ≤ 1 := by
  refine ⟨?_, ?_⟩ <;> (unfold score_paragraph; dsimp only; split <;> try dsimp only)
  · norm_num
  · exact (clamp01_bounds _).1
  · norm_num
  · exact (clamp01_bounds _).2

/-- The table score is clamped into [0,1]. -/
theorem score_table_line_bounds (text : String) :
    0 ≤ score_table_line text ∧ score_table_line text ≤ 1 := by
  refine ⟨?_, ?_⟩ <;> (unfold score_table_line; dsimp only; split <;> try dsimp only)
  · norm_num
  · exact (clamp01_bounds _).1
  · norm_num
  · exact (clamp01_bounds _).2

/-- The callout score is 0, 0.8, or a sum of nonnegative cue weights
capped at 1. -/
theorem score_callout_line_bounds (text : String) :
    0 ≤ score_callout_line text ∧ score_callout_line text ≤ 1 := by
  unfold score_callout_line
  split_ifs with h1 h2
  · norm_num
  · norm_num
  · dsimp only
    refine ⟨le_min zero_le_one ?_, min_le_left _ _⟩
    split_ifs <;> norm_num

/-- The inner key loop of the exact matcher only ever builds detections of
score 1. -/
theorem exactKeyHit_score (cn : List (String × String)) (ci : Bool) (i : Nat)
    (ks : List String) (d : ExactDetection)
    (h : exactKeyHit cn ci i ks = some d) : d.score = 1 := by
  induction ks with
  | nil => exact Option.noConfusion h
  | cons k ks ih =>
    unfold exactKeyHit at h ih
    rw [List.findSome?_cons] at h
    simp only [] at h
    cases hl : (cn.lookup (if ci then pyLower k else k)) with
    | none => rw [hl] at h; simp only [Option.map] at h; exact ih h
    | some title =>
      rw [hl] at h
      simp only [Option.map] at h
      injection h with h
      subst h
      rfl

/-- Every exact-match detection carries score 1.0. -/
theorem find_exact_matches_score_one (lines : PyLines)
    (candidates : List String) (ci : Bool) (d : ExactDetection)
    (hd : d ∈ find_exact_matches lines candidates ci) : d.score = 1 := by
  unfold find_exact_matches at hd
  rw [List.mem_filterMap] at hd
  obtain ⟨p, _, hp⟩ := hd
  exact exactKeyHit_score _ _ _ _ _ hp

/-- The best-candidate fold of the semantic classifier stays in [0,1] when
the ratio does. -/
theorem sem_fold_bounds (smRatio : String → String → ℚ)
    (hsm : ∀ a b, 0 ≤ smRatio a b ∧ smRatio a b ≤ 1) (s : String)
    (C : List String) (acc : ℚ × Option String)
    (h0 : 0 ≤ acc.1) (h1 : acc.1 ≤ 1) :
    0 ≤ (C.foldl (fun acc c =>
        let r := semRatio smRatio s c
        if acc.1 < r then (r, some c) else acc) acc).1 ∧
      (C.foldl (fun acc c =>
        let r := semRatio smRatio s c
        if acc.1 < r then (r, some c) else acc) acc).1 ≤ 1 := by
  induction C generalizing acc with
  | nil => exact ⟨h0, h1⟩
  | cons c cs ih =>
    simp only [List.foldl]
    by_cases hlt : acc.1 < semRatio smRatio s c
    · rw [if_pos hlt]
      exact ih _ (hsm _ _).1 (hsm _ _).2
    · rw [if_neg hlt]
      exact ih _ h0 h1

/-- Every semantic prediction's score lies in [0,1] when the underlying
ratio does. -/
theorem semantic_classify_score_bounds (smRatio : String → String → ℚ)
    (hsm : ∀ a b, 0 ≤ smRatio a b ∧ smRatio a b ≤ 1) (lines : PyLines)
    (candidates : List String) (threshold : ℚ) (p : SemanticPrediction)
    (hp : p ∈ semantic_classify smRatio lines candidates threshold) :
    0 ≤ p.score ∧ p.score ≤ 1 := by
  unfold semantic_classify at hp
  split_ifs at hp with hc
  · exact absurd hp (List.not_mem_nil p)
  · rw [List.mem_filterMap] at hp
    obtain ⟨q, _, hq⟩ := hp
    dsimp only at hq
    cases hb : (candidates.foldl (fun acc c =>
        let r := semRatio smRatio q.2 c
        if acc.1 < r then (r, some c) else acc)
        ((0 : ℚ), (none : Option String))).2 with
    | none => rw [hb] at hq; exact Option.noConfusion hq
    | some title =>
      rw [hb] at hq
      split_ifs at hq with hth
      injection hq with hq
      subst hq
      exact sem_fold_bounds smRatio hsm q.2 candidates (0, none)
        le_rfl zero_le_one

/-- Dividing every value of a keyed list by `z` divides the value sum by
`z`. -/
theorem sum_map_div (l : List (String × ℚ)) (z : ℚ) :
    ((l.map (fun p => (p.1, p.2 / z))).map Prod.snd).sum =
      ((l.map Prod.snd).sum) / z := by
  induction l with
  | nil => simp
  | cons h t ih =>
    simp only [List.map_cons, List.sum_cons, List.map_map] at *
    rw [ih, add_div]

/-- With a positive exponential, every softmax output value lies in
[0,1]. -/
theorem softmax_mem_bounds (expf : ℚ → ℚ) (hexp : ∀ x, 0 < expf x)
    (scores : List (String × ℚ)) (temp : ℚ) (kv : String × ℚ)
    (hkv : kv ∈ softmax expf scores temp) : 0 ≤ kv.2 ∧ kv.2 ≤ 1 := by
  cases scores with
  | nil => exact absurd hkv (List.not_mem_nil kv)
  | cons h t =>
    unfold softmax at hkv
    dsimp only at hkv
    set T := if temp ≤ 0 then 1 else temp with hT
    set m := ((h :: t).map Prod.snd).foldl max h.2 with hm
    set exps := (h :: t).map (fun p => (p.1, expf ((p.2 - m) / T))) with hexps
    have hpos : ∀ x ∈ exps.map Prod.snd, 0 < x := by
      intro x hx
      rw [hexps] at hx
      simp only [List.map_map, List.mem_map] at hx
      obtain ⟨p, _, rfl⟩ := hx
      exact hexp _
    have hzpos : 0 < (exps.map Prod.snd).sum := by
      refine List.sum_pos _ hpos ?_
      rw [hexps]
      simp
    rw [if_neg (ne_of_gt hzpos)] at hkv
    rw [List.mem_map] at hkv
    obtain ⟨p, hpmem, rfl⟩ := hkv
    have hple : p.2 ≤ (exps.map Prod.snd).sum := by
      refine List.single_le_sum (fun x hx => le_of_lt (hpos x hx)) _ ?_
      exact List.mem_map_of_mem Prod.snd hpmem
    have hppos : 0 < p.2 := hpos _ (List.mem_map_of_mem Prod.snd hpmem)
    constructor
    · exact div_nonneg (le_of_lt hppos) (le_of_lt hzpos)
    · rw [div_le_one hzpos]
      exact hple

/-- With a positive exponential, softmax values sum to exactly 1 on any
nonempty input. -/
theorem softmax_sum_one (expf : ℚ → ℚ) (hexp : ∀ x, 0 < expf x)
    (scores : List (String × ℚ)) (temp : ℚ) (hne : scores ≠ []) :
    ((softmax expf scores temp).map Prod.snd).sum = 1 := by
  cases scores with
  | nil => exact absurd rfl hne
  | cons h t =>
    unfold softmax
    dsimp only
    set T := if temp ≤ 0 then 1 else temp with hT
    set m := ((h :: t).map Prod.snd).foldl max h.2 with hm
    set exps := (h :: t).map (fun p => (p.1, expf ((p.2 - m) / T))) with hexps
    have hpos : ∀ x ∈ exps.map Prod.snd, 0 < x := by
      intro x hx
      rw [hexps] at hx
      simp only [List.map_map, List.mem_map] at hx
      obtain ⟨p, _, rfl⟩ := hx
      exact hexp _
    have hzpos : 0 < (exps.map Prod.snd).sum := by
      refine List.sum_pos _ hpos ?_
      rw [hexps]
      simp
    rw [if_neg (ne_of_gt hzpos)]
    rw [sum_map_div]
    exact div_self (ne_of_gt hzpos)

/-- Normalized domain scores lie in [0,1]. -/
theorem score_line_domain_mem_bounds (expf : ℚ → ℚ)
    (fuzzyRatio : String → String → ℚ) (hexp : ∀ x, 0 < expf x)
    (text : String) (packs : List (String × DomainPack))
    (lf : Option LineFeatures) (w : DomainWeights) (temp : ℚ)
    (kv : String × ℚ)
    (hkv : kv ∈ (score_line_domain expf fuzzyRatio text packs lf w temp).scores) :
    0 ≤ kv.2 ∧ kv.2 ≤ 1 := by
  unfold score_line_domain at hkv
  split_ifs at hkv with hp
  · exact absurd hkv (List.not_mem_nil kv)
  · exact softmax_mem_bounds expf hexp _ temp kv hkv

/-- Normalized domain scores sum to 1 whenever at least one pack is
configured. -/
theorem score_line_domain_sum_one (expf : ℚ → ℚ)
    (fuzzyRatio : String → String → ℚ) (hexp : ∀ x, 0 < expf x)
    (text : String) (packs : List (String × DomainPack))
    (lf : Option LineFeatures) (w : DomainWeights) (temp : ℚ)
    (hne : packs ≠ []) :
    (((score_line_domain expf fuzzyRatio text packs lf w temp).scores).map
      Prod.snd).sum = 1 := by
  unfold score_line_domain
  split_ifs with hp
  · exact absurd (List.isEmpty_iff.mp hp) hne
  · dsimp only
    refine softmax_sum_one expf hexp _ temp ?_
    intro hmap
    exact hne (List.map_eq_nil_iff.mp hmap)

/-- The regex fallback score is one of 0.6, 0.5, 0.3. -/
theorem regexScore_bounds (p : String) :
    0 ≤ regexScore p ∧ regexScore p ≤ 1 := by
  unfold regexScore
  split_ifs <;> norm_num

/-- Every regex-fallback detection's score lies in [0,1]. -/
theorem regex_fallback_score_bounds (lines : PyLines) (d : RegexDetection)
    (hd : d ∈ regex_fallback lines) : 0 ≤ d.score ∧ d.score ≤ 1 := by
  unfold regex_fallback at hd
  rw [List.mem_map] at hd
  obtain ⟨p, _, rfl⟩ := hd
  exact regexScore_bounds _

theorem c5_sap : score_against_pack (fun _ _ => 0) "FOO" none c5Pack
    defaultWeights = 3/2 := by
  rw [show score_against_pack (fun _ _ => 0) "FOO" none c5Pack defaultWeights
      = max ((1.00 : ℚ) + 0 + 0.50 + min 0.40 (((0 : Nat) : ℚ) * 0.10) - 0 + 0) 0
      from rfl]
  norm_num

/-- C5 counterexample: the `DomainScores.raw` values are returned inside
the DomainScores object, yet a pack whose exact-heading and regex tests
both hit the same line scores 1.5 raw — outside [0,1]. -/
theorem C5_counterexample_raw_above_one :
    (score_line_domain (fun _ => 1) (fun _ _ => 0) "FOO" [("P", c5Pack)]
      none defaultWeights 1).raw =
      [("P", 3/2)] ∧ ¬ ((3 : ℚ)/2 ≤ 1) := by
  constructor
  · rw [show (score_line_domain (fun _ => 1) (fun _ _ => 0) "FOO"
        [("P", c5Pack)] none defaultWeights 1).raw =
        [("P", score_against_pack (fun _ _ => 0) "FOO" none c5Pack
          defaultWeights)] from rfl]
    rw [c5_sap]
  · norm_num

/-- C5 (amended): every confidence value any detector returns lies in
[0,1] — exact matches score exactly 1, regex-fallback detections score in
[0.3,1], the heading/list/paragraph/table/callout heuristic scorers clamp
into [0,1], and semantic predictions inherit the similarity ratio's
bounds — and the domain scorer's softmax-NORMALIZED scores lie in [0,1]
and sum to exactly 1 whenever at least one pack is configured (given a
positive exponential).  The raw pre-softmax pack scores in the same
DomainScores object, however, are not bounded by 1
(C5_counterexample_raw_above_one). -/
theorem C5_score_bounds (expf : ℚ → ℚ) (smRatio : String → String → ℚ)
    (fuzzyRatio : String → String → ℚ) (hexp : ∀ x, 0 < expf x)
    (hsm : ∀ a b, 0 ≤ smRatio a b ∧ smRatio a b ≤ 1) :
    (∀ lines candidates ci d, d ∈ find_exact_matches lines candidates ci →
        d.score = 1) ∧
    (∀ lines d, d ∈ regex_fallback lines → 0 ≤ d.score ∧ d.score ≤ 1) ∧
    (∀ text feats clues, 0 ≤ score_heading text feats clues ∧
        score_heading text feats clues ≤ 1) ∧
    (∀ text, 0 ≤ score_list_line text ∧ score_list_line text ≤ 1) ∧
    (∀ text feats, 0 ≤ score_paragraph text feats ∧
        score_paragraph text feats ≤ 1) ∧
    (∀ text, 0 ≤ score_table_line text ∧ score_table_line text ≤ 1) ∧
    (∀ text, 0 ≤ score_callout_line text ∧ score_callout_line text ≤ 1) ∧
    (∀ lines candidates threshold p,
        p ∈ semantic_classify smRatio lines candidates threshold →
        0 ≤ p.score ∧ p.score ≤ 1) ∧
    (∀ text packs lf w temp kv,
        kv ∈ (score_line_domain expf fuzzyRatio text packs lf w temp).scores →
        0 ≤ kv.2 ∧ kv.2 ≤ 1) ∧
    (∀ text packs lf w temp, packs ≠ [] →
        (((score_line_domain expf fuzzyRatio text packs lf w
            temp).scores).map Prod.snd).sum = 1) :=
  ⟨fun lines candidates ci d hd =>
      find_exact_matches_score_one lines candidates ci d hd,
   fun lines d hd => regex_fallback_score_bounds lines d hd,
   fun text feats clues => score_heading_bounds text feats clues,
   fun text => score_list_line_bounds text,
   fun text feats => score_paragraph_bounds text feats,
   fun text => score_table_line_bounds text,
   fun text => score_callout_line_bounds text,
   fun lines candidates threshold p hp =>
      semantic_classify_score_bounds smRatio hsm lines candidates threshold p hp,
   fun text packs lf w temp kv hkv =>
      score_line_domain_mem_bounds expf fuzzyRatio hexp text packs lf w
        temp kv hkv,
   fun text packs lf w temp hne =>
      score_line_domain_sum_one expf fuzzyRatio hexp text packs lf w
        temp hne⟩

theorem C5_score_bounds_witness :
    (∀ x : ℚ, 0 < (1 : ℚ)) ∧
    (((score_line_domain (fun _ => 1) (fun _ _ => 0) "FOO" [("P", c5Pack)]
        none defaultWeights 1).scores).map Prod.snd).sum = 1 :=
  ⟨fun _ => one_pos,
   (C5_score_bounds (fun _ => 1) (fun _ _ => (1 : ℚ)/2) (fun _ _ => 0)
      (fun _ => one_pos) (fun _ _ => by norm_num)).2.2.2.2.2.2.2.2.2
     "FOO" [("P", c5Pack)] none defaultWeights 1 (List.cons_ne_nil _ _)⟩

/-- The code's keyed-normalization pattern: build (k, b k) pairs, then
divide each value by their sum (1 when the sum is 0).  With a nonzero
blend sum the keys survive, each value is b k / sum, and the values sum
to 1. -/
theorem emaNormGeneric (keys : List String) (b : String → ℚ)
    (hs : (keys.map b).sum ≠ 0) :
    let out := keys.map (fun k => (k, b k))
    let s0 := (out.map Prod.snd).sum
    let s := if s0 = 0 then 1 else s0
    ((out.map (fun p => (p.1, p.2 / s))).map Prod.fst = keys) ∧
    (∀ p ∈ out.map (fun p => (p.1, p.2 / s)),
        p.2 = b p.1 / (keys.map b).sum) ∧
    ((out.map (fun p => (p.1, p.2 / s))).map Prod.snd).sum = 1 := by
  dsimp only
  have hmm : ((keys.map (fun k => (k, b k))).map Prod.snd) = keys.map b := by
    rw [List.map_map]
    rfl
  simp only [hmm, if_neg hs]
  refine ⟨?_, ?_, ?_⟩
  · rw [List.map_map, List.map_map]
    exact List.map_id keys
  · intro p hp
    rw [List.map_map, List.mem_map] at hp
    obtain ⟨k, hk, rfl⟩ := hp
    rfl
  · rw [sum_map_div, hmm]
    exact div_self hs

/-- C9 counterexample: with no previous prior and an empty current
mapping (as the domain scorer returns when no packs are configured), the
EMA update returns the empty mapping, whose values sum to 0, not 1 — the
claimed re-normalization to sum 1 cannot hold on an all-zero blend. -/
theorem C9_counterexample_empty_sum_zero :
    ema_prior_update none [] ((1 : ℚ)/5) = [] ∧
    ((ema_prior_update none [] ((1 : ℚ)/5)).map Prod.snd).sum = 0 ∧
    (0 : ℚ) ≠ 1 := by
  refine ⟨rfl, rfl, by norm_num⟩

/-- C9 (amended): whenever the pointwise blend
k ↦ (1-α)·prev(k) + α·current(k) over the union of the key sets has a
NONZERO sum, `ema_prior_update` returns exactly those keys (current keys
first, then the remaining previous keys), each value is its blend divided
by the blend sum, and the returned values sum to exactly 1.  (When the
blend sum is 0 the code divides by 1 instead, returning the all-zero
blend unnormalized — C9_counterexample_empty_sum_zero.) -/
theorem C9_ema_blend_normalized (prev : Option (List (String × ℚ)))
    (current : List (String × ℚ)) (alpha : ℚ)
    (hs : ((specEmaKeys (prev.getD []) current).map
        (specEmaBlend (prev.getD []) current alpha)).sum ≠ 0) :
    ((ema_prior_update prev current alpha).map Prod.fst =
      specEmaKeys (prev.getD []) current) ∧
    (∀ p ∈ ema_prior_update prev current alpha,
        p.2 = specEmaBlend (prev.getD []) current alpha p.1 /
          ((specEmaKeys (prev.getD []) current).map
            (specEmaBlend (prev.getD []) current alpha)).sum) ∧
    ((ema_prior_update prev current alpha).map Prod.snd).sum = 1 :=
  emaNormGeneric (specEmaKeys (prev.getD []) current)
    (specEmaBlend (prev.getD []) current alpha) hs

theorem C9_ema_blend_normalized_witness :
    ((specEmaKeys ((none : Option (List (String × ℚ))).getD [])
        [("A", (1 : ℚ)/2)]).map
      (specEmaBlend ((none : Option (List (String × ℚ))).getD [])
        [("A", (1 : ℚ)/2)] ((1 : ℚ)/5))).sum ≠ 0 ∧
    ((ema_prior_update none [("A", (1 : ℚ)/2)] ((1 : ℚ)/5)).map
      Prod.snd).sum = 1 := by
  have hs : ((specEmaKeys ((none : Option (List (String × ℚ))).getD [])
        [("A", (1 : ℚ)/2)]).map
      (specEmaBlend ((none : Option (List (String × ℚ))).getD [])
        [("A", (1 : ℚ)/2)] ((1 : ℚ)/5))).sum ≠ 0 := by
    rw [show ((specEmaKeys ((none : Option (List (String × ℚ))).getD [])
          [("A", (1 : ℚ)/2)]).map
        (specEmaBlend ((none : Option (List (String × ℚ))).getD [])
          [("A", (1 : ℚ)/2)] ((1 : ℚ)/5))).sum =
        (1 - (1 : ℚ)/5) * 0 + (1 : ℚ)/5 * ((1 : ℚ)/2) + 0 from rfl]
    norm_num
  exact ⟨hs, (C9_ema_blend_normalized none [("A", (1 : ℚ)/2)] ((1 : ℚ)/5)
    hs).2.2⟩

end Templify
